import Mathlib

/-
Shallow embedding of the glTF loader (src/src/gltf_loader.cpp) of the
CrowdWare/VoxelEngine repository.

Modelling conventions:
* C++ `float`/`double` values are modelled as rationals (`F := ℚ`); float
  literals are taken at their decimal face value.
* `std::sqrt` is not rational, so every function that calls it takes an extra
  parameter `s : F → F` standing for the float square root.  Comparisons of the
  form `sqrt e > c` with `c ≥ 0` are modelled as `e > c^2` (monotonicity of the
  real square root); divisions by `sqrt e` divide by `s e`.
* raw binary buffers are modelled as a byte length plus abstract per-offset
  decoders (`f32At`, `u8At`, ...); bit-level reinterpretation of bytes is
  memory-layout detail outside the embedding, while all offset and bounds
  arithmetic is embedded exactly.
* C++ strings are modelled as `List Char`; file decoding through tinygltf
  (`LoadTinyGltfModelFromFile`, an external library plus filesystem probing) is
  modelled as a function parameter `fs : Str → Except Str GModel`.
* out-parameters that are filled only on success are modelled with `Except`;
  where a claim is about the untouched-on-failure convention the wrapper
  returning `(ok, defaulted value, error)` is used.
-/

namespace VoxelGltf

abbrev F : Type := ℚ

abbrev Str : Type := List Char

abbrev Vec2 : Type := F × F

abbrev Vec3 : Type := F × F × F

abbrev Vec4 : Type := F × F × F × F

abbrev UVec4 : Type := Nat × Nat × Nat × Nat

def v3zero : Vec3 := (0, 0, 0)

/-- tinygltf component-type enumeration (TINYGLTF_COMPONENT_TYPE_*). -/
inductive ComponentType where
  | i8 | u8 | i16 | u16 | u32 | f32 | f64
deriving DecidableEq

/-- tinygltf accessor-type enumeration (TINYGLTF_TYPE_*). -/
inductive AccessorType where
  | scalar | vec2 | vec3 | vec4 | mat2 | mat3 | mat4
deriving DecidableEq

/-- tinygltf GetComponentSizeInBytes. -/
def componentSizeInBytes : ComponentType → Nat
  | .i8 => 1
  | .u8 => 1
  | .i16 => 2
  | .u16 => 2
  | .u32 => 4
  | .f32 => 4
  | .f64 => 8

/-- tinygltf GetNumComponentsInType. -/
def numComponentsInType : AccessorType → Nat
  | .scalar => 1
  | .vec2 => 2
  | .vec3 => 3
  | .vec4 => 4
  | .mat2 => 4
  | .mat3 => 9
  | .mat4 => 16

structure BufferView where
  buffer : Int
  byteOffset : Nat
  byteStride : Nat
deriving DecidableEq

/-- Raw binary buffer: a byte length plus abstract decoders giving the value
obtained by reinterpreting the bytes at a given offset. -/
structure GltfBuffer where
  byteLength : Nat
  f32At : Nat → F
  u8At : Nat → Nat
  u16At : Nat → Nat
  u32At : Nat → Nat

structure Accessor where
  componentType : ComponentType
  type : AccessorType
  bufferView : Int
  byteOffset : Nat
  count : Nat
deriving DecidableEq

/-- tinygltf Accessor::ByteStride: the view's byteStride when non-zero,
otherwise the tightly-packed element size. -/
def accessorByteStride (a : Accessor) (v : BufferView) : Nat :=
  if v.byteStride = 0 then componentSizeInBytes a.componentType * numComponentsInType a.type
  else v.byteStride

/-- Bounds-checked lookup for the C++ pattern `i >= 0 && i < vec.size()`
followed by `vec[i]`. -/
def idx? (l : List α) (i : Int) : Option α :=
  if 0 ≤ i ∧ i < (l.length : Int) then l[i.toNat]? else none

structure Primitive where
  attributes : List (Str × Int)
  indices : Int
deriving DecidableEq

structure GMesh where
  name : Str
  primitives : List Primitive
deriving DecidableEq

structure Node where
  name : Str
  children : List Int
  mesh : Int
  translation : List F
  rotationQ : List F
  scale : List F
  matrix : List F
deriving DecidableEq

structure Skin where
  joints : List Int
  inverseBindMatrices : Int
deriving DecidableEq

structure AnimationChannel where
  sampler : Int
  target_node : Int
  target_path : Str
deriving DecidableEq

structure AnimationSampler where
  input : Int
  output : Int
deriving DecidableEq

structure GAnimation where
  name : Str
  channels : List AnimationChannel
  samplers : List AnimationSampler
deriving DecidableEq

/-- Decoded scene document (the parts of tinygltf::Model the loader uses). -/
structure GModel where
  nodes : List Node
  meshes : List GMesh
  skins : List Skin
  animations : List GAnimation
  accessors : List Accessor
  bufferViews : List BufferView
  buffers : List GltfBuffer

/-- Resolution of an accessor's bufferView and buffer references, mirroring
the two bounds-checked index lookups at gltf_loader.cpp:277-282. -/
def resolveVB? (m : GModel) (a : Accessor) : Option (BufferView × GltfBuffer) :=
  match idx? m.bufferViews a.bufferView with
  | none => none
  | some view =>
    match idx? m.buffers view.buffer with
    | none => none
    | some buffer => some (view, buffer)

/-- Stride used by ReadAccessor: accessor byte stride, tightened to
`expected * sizeof(float)` when zero. -/
def strideOf (a : Accessor) (view : BufferView) (expected : Nat) : Nat :=
  let stride0 := accessorByteStride a view
  if stride0 = 0 then expected * 4 else stride0

/-- Base byte offset `view.byteOffset + accessor.byteOffset`. -/
def baseOf (a : Accessor) (view : BufferView) : Nat :=
  view.byteOffset + a.byteOffset

/-- Declared byte extent `stride*(N-1) + elementSize` (0 when count is 0). -/
def requiredBytes (a : Accessor) (view : BufferView) (expected : Nat) : Nat :=
  if a.count = 0 then 0 else strideOf a view expected * (a.count - 1) + expected * 4

/-- The five early component-type/shape checks of ReadAccessor
(gltf_loader.cpp:266-275), as one conjunction. -/
def readShapeOk (a : Accessor) (expected : Nat) : Prop :=
  a.componentType = ComponentType.f32 ∧
  ¬(a.type = AccessorType.scalar ∧ expected ≠ 1) ∧
  ¬(a.type = AccessorType.vec2 ∧ expected ≠ 2) ∧
  ¬(a.type = AccessorType.vec3 ∧ expected ≠ 3) ∧
  ¬(a.type = AccessorType.vec4 ∧ expected ≠ 4)

instance (a : Accessor) (expected : Nat) : Decidable (readShapeOk a expected) := by
  unfold readShapeOk; infer_instance

/-- ReadAccessor (gltf_loader.cpp:259-299): float accessor extraction.
`none` models `return false` with the output cleared. -/
def ReadAccessor (m : GModel) (a : Accessor) (expected : Nat) : Option (List F) :=
  if readShapeOk a expected then
    match resolveVB? m a with
    | none => none
    | some (view, buffer) =>
      if buffer.byteLength < baseOf a view + requiredBytes a view expected then none
      else
        some ((List.range a.count).flatMap fun i =>
          (List.range expected).map fun c =>
            buffer.f32At (baseOf a view + strideOf a view expected * i + 4 * c))
  else none

/-- Supported component-type/shape combination with resolvable buffer
references, exactly the early checks of ReadAccessor. -/
def readSupportedB (m : GModel) (a : Accessor) (expected : Nat) : Bool :=
  decide (readShapeOk a expected) && (resolveVB? m a).isSome

/-- Declared byte range `[offset, offset + stride*(N-1) + elementSize)` fits in
the resolved buffer. -/
def readInRangeB (m : GModel) (a : Accessor) (expected : Nat) : Bool :=
  match resolveVB? m a with
  | none => false
  | some (view, buffer) =>
    decide (baseOf a view + requiredBytes a view expected ≤ buffer.byteLength)

/-- Values ReadAccessor emits when all its checks pass. -/
def readPayload (m : GModel) (a : Accessor) (expected : Nat) : List F :=
  match resolveVB? m a with
  | none => []
  | some (view, buffer) =>
    (List.range a.count).flatMap fun i =>
      (List.range expected).map fun c =>
        buffer.f32At (baseOf a view + strideOf a view expected * i + 4 * c)

lemma flatMap_range_map_length (n e : Nat) (g : Nat → Nat → F) :
    ((List.range n).flatMap fun i => (List.range e).map (g i)).length = n * e := by
  induction n with
  | zero => simp
  | succ k ih =>
    rw [List.range_succ, List.flatMap_append]
    simp [ih, Nat.succ_mul]

lemma readAccessor_characterization (m : GModel) (a : Accessor) (expected : Nat) :
    ReadAccessor m a expected =
      if readSupportedB m a expected = true ∧ readInRangeB m a expected = true
      then some (readPayload m a expected) else none := by
  unfold ReadAccessor readSupportedB readInRangeB readPayload
  by_cases hs : readShapeOk a expected
  · rcases hvb : resolveVB? m a with _ | ⟨view, buffer⟩
    · simp [hs, hvb]
    · simp only [hs, hvb, if_true, decide_eq_true_eq]
      by_cases hb : buffer.byteLength < baseOf a view + requiredBytes a view expected
      · simp [hs, hb, Nat.not_le.mpr hb]
      · simp [hs, hb, Nat.not_lt.mp hb]
  · simp [hs]

/-- Claim C5: for every accessor read by ReadAccessor, an unsupported
component-type/shape combination or unresolvable buffer reference, or a
declared byte range exceeding the buffer's byte length, yields failure with an
empty output (modelled as `none`); otherwise the read succeeds and the output
holds exactly `count × componentCount` values. -/
theorem readAccessor_output_contract (m : GModel) (a : Accessor) (expected : Nat) :
    (ReadAccessor m a expected = none ↔
      ¬(readSupportedB m a expected = true ∧ readInRangeB m a expected = true)) ∧
    (∀ out, ReadAccessor m a expected = some out → out.length = a.count * expected) := by
  rw [readAccessor_characterization]
  by_cases h : readSupportedB m a expected = true ∧ readInRangeB m a expected = true
  · refine ⟨by simp [h], ?_⟩
    intro out hout
    rw [if_pos h] at hout
    have hpay := (Option.some.injEq _ _).mp hout
    subst hpay
    unfold readPayload
    rcases hvb : resolveVB? m a with _ | ⟨view, buffer⟩
    · unfold readSupportedB at h
      rw [hvb] at h
      simp at h
    · exact flatMap_range_map_length _ _ _
  · exact ⟨by simp [h], by simp [h]⟩

/-- Component byte size used by ReadIndices/ReadAccessorUint4 for unsigned
integer component types; 0 models the `default: return false` branch. -/
def uintComponentSize : ComponentType → Nat
  | .u8 => 1
  | .u16 => 2
  | .u32 => 4
  | _ => 0

/-- Read the unsigned integer value of the given component size at a byte
offset, widened to 32-bit (modelled as Nat). -/
def readUintAt (b : GltfBuffer) (component : Nat) (off : Nat) : Nat :=
  if component = 1 then b.u8At off
  else if component = 2 then b.u16At off
  else b.u32At off

/-- ReadIndices (gltf_loader.cpp:301-347): integer index extraction widened to
uint32. -/
def ReadIndices (m : GModel) (a : Accessor) : Option (List Nat) :=
  match resolveVB? m a with
  | none => none
  | some (view, buffer) =>
    let component := uintComponentSize a.componentType
    if component = 0 then none
    else
      let stride0 := accessorByteStride a view
      let stride := if stride0 = 0 then component * 1 else stride0
      let required := if a.count = 0 then 0 else stride * (a.count - 1) + component
      if buffer.byteLength < baseOf a view + required then none
      else
        some ((List.range a.count).map fun i =>
          readUintAt buffer component (baseOf a view + stride * i))

/-- ReadAccessorUint4 (gltf_loader.cpp:349-394): VEC4 unsigned integer
attribute extraction (joint indices), widened to uint32. -/
def ReadAccessorUint4 (m : GModel) (a : Accessor) : Option (List Nat) :=
  if a.type ≠ AccessorType.vec4 then none
  else
    match resolveVB? m a with
    | none => none
    | some (view, buffer) =>
      let component := uintComponentSize a.componentType
      if component = 0 then none
      else
        let stride0 := accessorByteStride a view
        let stride := if stride0 = 0 then component * 4 else stride0
        let required := if a.count = 0 then 0 else stride * (a.count - 1) + component * 4
        if buffer.byteLength < baseOf a view + required then none
        else
          some ((List.range a.count).flatMap fun i =>
            (List.range 4).map fun c =>
              readUintAt buffer component (baseOf a view + stride * i + c * component))

/-- ReadAccessorMat4 (gltf_loader.cpp:841-870): float MAT4 extraction. -/
def ReadAccessorMat4 (m : GModel) (a : Accessor) : Option (List F) :=
  if a.componentType ≠ ComponentType.f32 ∨ a.type ≠ AccessorType.mat4 then none
  else
    match resolveVB? m a with
    | none => none
    | some (view, buffer) =>
      let stride0 := accessorByteStride a view
      let stride := if stride0 = 0 then 4 * 16 else stride0
      let required := if a.count = 0 then 0 else stride * (a.count - 1) + 4 * 16
      if buffer.byteLength < baseOf a view + required then none
      else
        some ((List.range a.count).flatMap fun i =>
          (List.range 16).map fun k =>
            buffer.f32At (baseOf a view + stride * i + 4 * k))

/-- SplitPathFragment (gltf_loader.cpp:48-63): split a path at the first '#'
into base and fragment. -/
def splitPathFragment (path : Str) : Str × Str :=
  let base := path.takeWhile (fun c => c ≠ '#')
  let rest := path.dropWhile (fun c => c ≠ '#')
  (base, rest.tail)

/-- Resolved base path: fragment stripped, with the empty-base fallback of the
callers (`if (base_path.empty()) base_path = path`). -/
def resolvedBase (path : Str) : Str :=
  let base := (splitPathFragment path).1
  if base = [] then path else base

/-- SplitMeshSelectors (gltf_loader.cpp:221-242): split the fragment at '#',
dropping empty parts; an empty result becomes the single empty selector. -/
def splitMeshSelectors (fragment : Str) : List Str :=
  let parts := (fragment.splitOn '#').filter (fun p => p ≠ [])
  if parts = [] then [[]] else parts

/-- FindMeshIndexByName (gltf_loader.cpp:244-256): mesh index for a selector
name; meshes by name first, then nodes whose mesh reference resolves. -/
def FindMeshIndexByName (m : GModel) (name : Str) : Int :=
  if name = [] then 0
  else
    match m.meshes.findIdx? (fun me => me.name = name) with
    | some i => (i : Int)
    | none =>
      match m.nodes.find? (fun n => n.name = name ∧ 0 ≤ n.mesh) with
      | some n => n.mesh
      | none => -1

/-- Component `c` of flat float vector `i` (3 components), as read by
push_vertex: `values[idx * 3 + c]`. -/
def vec3At (vals : List F) (i : Nat) : Vec3 :=
  (vals.getD (i * 3) 0, vals.getD (i * 3 + 1) 0, vals.getD (i * 3 + 2) 0)

def vec2At (vals : List F) (i : Nat) : Vec2 :=
  (vals.getD (i * 2) 0, vals.getD (i * 2 + 1) 0)

def vec4At (vals : List F) (i : Nat) : Vec4 :=
  (vals.getD (i * 4) 0, vals.getD (i * 4 + 1) 0,
   vals.getD (i * 4 + 2) 0, vals.getD (i * 4 + 3) 0)

def uvec4At (vals : List Nat) (i : Nat) : UVec4 :=
  (vals.getD (i * 4) 0, vals.getD (i * 4 + 1) 0,
   vals.getD (i * 4 + 2) 0, vals.getD (i * 4 + 3) 0)

/-- Attribute lookup in a primitive (std::map::find on unique keys). -/
def attrFind (prim : Primitive) (key : Str) : Option Int :=
  (prim.attributes.find? (fun kv => kv.1 = key)).map (fun kv => kv.2)

/-- Per-vertex data one primitive appends to the output stream.  The C++
accumulates flat float arrays; one entry here corresponds to one emitted
vertex (3/2/4 consecutive floats there). -/
structure PrimData where
  pos : List Vec3
  norm : List Vec3
  uv : List Vec2
  col : List Vec4
  joints : List UVec4
  weights : List Vec4
  hasUv : Bool
deriving DecidableEq

/-- Accessor read for an optional attribute: `none` when the attribute is
absent, its accessor index does not resolve, or the read fails — exactly the
cases in which the C++ local vector stays empty. -/
def optionalFloats? (m : GModel) (prim : Primitive) (key : Str) (expected : Nat) :
    Option (List F) :=
  match attrFind prim key with
  | none => none
  | some ai =>
    match idx? m.accessors ai with
    | none => none
    | some acc => ReadAccessor m acc expected

def optionalFloats (m : GModel) (prim : Primitive) (key : Str) (expected : Nat) : List F :=
  (optionalFloats? m prim key expected).getD []

def optionalUint4 (m : GModel) (prim : Primitive) (key : Str) : List Nat :=
  match attrFind prim key with
  | none => []
  | some ai =>
    match idx? m.accessors ai with
    | none => []
    | some acc => (ReadAccessorUint4 m acc).getD []

/-- Index list a primitive is expanded with (gltf_loader.cpp:546-549 and
591-597): its decoded index accessor when present (empty on a failed read, so
no vertex is pushed), else the identity expansion over the position count. -/
def primIndexList (m : GModel) (prim : Primitive) (positions : List F) : List Nat :=
  if 0 ≤ prim.indices then
    match idx? m.accessors prim.indices with
    | none => []
    | some acc => (ReadIndices m acc).getD []
  else List.range (positions.length / 3)

/-- What one primitive contributes to the vertex stream
(gltf_loader.cpp:502-599).  `none` models the `continue` paths: no POSITION
attribute, or the position read failed. -/
def primContribution (m : GModel) (prim : Primitive) : Option PrimData :=
  match attrFind prim "POSITION".data with
  | none => none
  | some pi0 =>
    match idx? m.accessors pi0 with
    | none => none
    | some pacc =>
      match ReadAccessor m pacc 3 with
      | none => none
      | some positions =>
        let normals := optionalFloats m prim "NORMAL".data 3
        let uvs := optionalFloats m prim "TEXCOORD_0".data 2
        let colors := optionalFloats m prim "COLOR_0".data 4
        let joints := optionalUint4 m prim "JOINTS_0".data
        let weights := optionalFloats m prim "WEIGHTS_0".data 4
        let idxList := primIndexList m prim positions
        some {
          pos := idxList.map (vec3At positions)
          norm := if normals = [] then [] else idxList.map (vec3At normals)
          uv := if uvs = [] then [] else idxList.map (vec2At uvs)
          col := if colors = [] then [] else idxList.map (vec4At colors)
          joints :=
            if joints = [] ∨ weights = [] then idxList.map (fun _ => ((0, 0, 0, 0) : UVec4))
            else idxList.map (uvec4At joints)
          weights :=
            if joints = [] ∨ weights = [] then idxList.map (fun _ => ((1, 0, 0, 0) : Vec4))
            else idxList.map (vec4At weights)
          hasUv := (optionalFloats? m prim "TEXCOORD_0".data 2).isSome }

def v3x (p : Vec3) : F := p.1

def v3y (p : Vec3) : F := p.2.1

def v3z (p : Vec3) : F := p.2.2

def sub3 (a b : Vec3) : Vec3 := (a.1 - b.1, a.2.1 - b.2.1, a.2.2 - b.2.2)

/-- Cross product as written at gltf_loader.cpp:410-412. -/
def cross3 (u v : Vec3) : Vec3 :=
  (v3y u * v3z v - v3z u * v3y v,
   v3z u * v3x v - v3x u * v3z v,
   v3x u * v3y v - v3y u * v3x v)

def normSq3 (n : Vec3) : F := v3x n * v3x n + v3y n * v3y n + v3z n * v3z n

/-- Flat normal of one emitted triangle (gltf_loader.cpp:400-418).  The C++
computes `len = sqrt(nsq)` and normalizes only when `len > 1e-6`; since the
real square root is monotone this branch is `nsq > 1e-12`, and the division by
`len` divides by `s nsq`, the modelled float sqrt of `nsq`.  Otherwise the raw
(near-zero) cross product is kept. -/
def triNormal (s : F → F) (p0 p1 p2 : Vec3) : Vec3 :=
  let u := sub3 p1 p0
  let v := sub3 p2 p0
  let n := cross3 u v
  let nsq := normSq3 n
  if (1 : F) / 1000000000000 < nsq then
    (v3x n / s nsq, v3y n / s nsq, v3z n / s nsq)
  else n

/-- ComputeNormals (gltf_loader.cpp:396-425): output starts as zeros of the
position count; each complete triangle (of consecutive vertices) overwrites
its three entries with the shared flat normal; a trailing incomplete group
stays zero. -/
def computeNormals (s : F → F) (ps : List Vec3) : List Vec3 :=
  (List.range ps.length).map fun j =>
    if 3 * (j / 3) + 2 < ps.length then
      triNormal s (ps.getD (3 * (j / 3)) v3zero) (ps.getD (3 * (j / 3) + 1) v3zero)
        (ps.getD (3 * (j / 3) + 2) v3zero)
    else v3zero

/-- Componentwise membership in the padded unit cube used by the centering
heuristic. -/
def inUnitRange (p : Vec3) : Prop :=
  -(1 : F) / 1000 ≤ v3x p ∧ -(1 : F) / 1000 ≤ v3y p ∧ -(1 : F) / 1000 ≤ v3z p ∧
  v3x p ≤ 1001 / 1000 ∧ v3y p ≤ 1001 / 1000 ∧ v3z p ≤ 1001 / 1000

instance (p : Vec3) : Decidable (inUnitRange p) := by
  unfold inUnitRange; infer_instance

/-- std::min (computable on ℚ; equal to `min` on a total order). -/
def rmin (a b : F) : F := if b < a then b else a

/-- std::max (computable on ℚ; equal to `max` on a total order). -/
def rmax (a b : F) : F := if a < b then b else a

/-- Centering pass of LoadGltfMesh (gltf_loader.cpp:615-633): bounding box via
min/max folds from ±1e9, then subtract 0.5 per component when the box lies in
[-0.001, 1.001] on every axis. -/
def centerPositions (ps : List Vec3) : List Vec3 :=
  let min_x := ps.foldl (fun acc p => rmin acc (v3x p)) 1000000000
  let min_y := ps.foldl (fun acc p => rmin acc (v3y p)) 1000000000
  let min_z := ps.foldl (fun acc p => rmin acc (v3z p)) 1000000000
  let max_x := ps.foldl (fun acc p => rmax acc (v3x p)) (-1000000000)
  let max_y := ps.foldl (fun acc p => rmax acc (v3y p)) (-1000000000)
  let max_z := ps.foldl (fun acc p => rmax acc (v3z p)) (-1000000000)
  if -(1 : F) / 1000 ≤ min_x ∧ -(1 : F) / 1000 ≤ min_y ∧ -(1 : F) / 1000 ≤ min_z ∧
     max_x ≤ 1001 / 1000 ∧ max_y ≤ 1001 / 1000 ∧ max_z ≤ 1001 / 1000 then
    ps.map fun p => (v3x p - 1 / 2, v3y p - 1 / 2, v3z p - 1 / 2)
  else ps

/-- VoxelRenderer::MeshData vertex arrays (voxel_renderer.h:44-54), one entry
per emitted vertex (the C++ flat float arrays are the flattenings). -/
structure MeshData where
  positions : List Vec3 := []
  normals : List Vec3 := []
  uvs : List Vec2 := []
  colors : List Vec4 := []
  joints : List UVec4 := []
  weights : List Vec4 := []
deriving DecidableEq, Inhabited

/-- GltfMesh output structure (gltf_loader.h).  The base-color texture path is
renderer-facing filesystem plumbing no claim touches and is not modelled. -/
structure GltfMeshOut where
  mesh : MeshData := {}
  has_uv : Bool := false
deriving DecidableEq, Inhabited

/-- Mesh indices one selector resolves to (gltf_loader.cpp:473-486): all
meshes for the empty selector, else the FindMeshIndexByName result or the
mesh-not-found failure. -/
def selectorMeshIndices (m : GModel) (selector : Str) : Except Str (List Int) :=
  if selector = [] then .ok ((List.range m.meshes.length).map (fun i => (i : Int)))
  else
    let mi := FindMeshIndexByName m selector
    if mi < 0 then .error ("Mesh not found: ".data ++ selector)
    else .ok [mi]

/-- Contributions of one resolved mesh index (invalid indices and meshes
without primitives contribute nothing, gltf_loader.cpp:489-501). -/
def meshPrimDatas (m : GModel) (mi : Int) : List PrimData :=
  match idx? m.meshes mi with
  | none => []
  | some mesh => mesh.primitives.filterMap (primContribution m)

/-- One selector's primitive batch, failing with "Missing POSITION" when no
primitive under it loaded (gltf_loader.cpp:601-605). -/
def selectorPrimDatas (m : GModel) (selector : Str) : Except Str (List PrimData) :=
  match selectorMeshIndices m selector with
  | .error e => .error e
  | .ok idxs =>
    let pds := idxs.flatMap (meshPrimDatas m)
    if pds = [] then .error "Missing POSITION".data else .ok pds

/-- All selectors' contributions in order, stopping at the first failure. -/
def allPrimDatas (m : GModel) (selectors : List Str) : Except Str (List PrimData) :=
  selectors.foldlM (fun acc sel => (selectorPrimDatas m sel).map (acc ++ ·)) []

/-- Core of LoadGltfMesh (gltf_loader.cpp:427-642) after the scene file is
decoded: assemble the vertex stream, synthesize normals when none were
emitted, and apply the unit-cube centering heuristic. -/
def loadGltfMeshFromModel (s : F → F) (m : GModel) (selectors : List Str) :
    Except Str GltfMeshOut :=
  if m.meshes = [] then .error "No mesh primitives".data
  else
    match allPrimDatas m selectors with
    | .error e => .error e
    | .ok pds =>
      let outPos := pds.flatMap PrimData.pos
      let outNorm := pds.flatMap PrimData.norm
      let norm := if outNorm = [] then computeNormals s outPos else outNorm
      .ok { mesh := { positions := centerPositions outPos
                      normals := norm
                      uvs := pds.flatMap PrimData.uv
                      colors := pds.flatMap PrimData.col
                      joints := pds.flatMap PrimData.joints
                      weights := pds.flatMap PrimData.weights }
            has_uv := pds.any PrimData.hasUv }

/-- LoadGltfMesh's out-parameter convention: the output mesh is reset to the
default at entry and only assigned on success, so a failure returns
`(false, default, message)`. -/
def loadGltfMeshOut (s : F → F) (m : GModel) (selectors : List Str) :
    Bool × GltfMeshOut × Str :=
  match loadGltfMeshFromModel s m selectors with
  | .ok out => (true, out, [])
  | .error e => (false, {}, e)

/-- LoadGltfMesh path facade: fragment split, selector split, external decode
(`fs` models LoadTinyGltfModelFromFile), then the assembly core. -/
def loadGltfMesh (s : F → F) (fs : Str → Except Str GModel) (path : Str) :
    Except Str GltfMeshOut :=
  let base := resolvedBase path
  let selectors := splitMeshSelectors (splitPathFragment path).2
  match fs base with
  | .error e => .error e
  | .ok m => loadGltfMeshFromModel s m selectors

def v4x (q : Vec4) : F := q.1

def v4y (q : Vec4) : F := q.2.1

def v4z (q : Vec4) : F := q.2.2.1

def v4w (q : Vec4) : F := q.2.2.2

/-- QuatNormalize (gltf_loader.cpp:749-755).  The C++ computes
`len = sqrt(lensq)` and branches on `len <= 1e-8`, which for the real square
root is `lensq <= 1e-16`; the division by `len` divides by `s lensq`. -/
def quatNormalize (s : F → F) (q : Vec4) : Vec4 :=
  let lensq := v4x q * v4x q + v4y q * v4y q + v4z q * v4z q + v4w q * v4w q
  if lensq ≤ (1 : F) / 10000000000000000 then (0, 0, 0, 1)
  else
    let inv := 1 / s lensq
    (v4x q * inv, v4y q * inv, v4z q * inv, v4w q * inv)

abbrev Mat4 : Type := List F

/-- Column-major 4x4 identity (gltf_loader.cpp:712-716). -/
def mat4Identity : Mat4 :=
  [1, 0, 0, 0, 0, 1, 0, 0, 0, 0, 1, 0, 0, 0, 0, 1]

/-- Mat4Multiply (gltf_loader.cpp:718-730), column-major:
`r[col*4+row] = sum_k a[k*4+row] * b[col*4+k]`. -/
def mat4Mul (a b : Mat4) : Mat4 :=
  (List.range 16).map fun idx =>
    let col := idx / 4
    let row := idx % 4
    a.getD (0 * 4 + row) 0 * b.getD (col * 4 + 0) 0 +
    a.getD (1 * 4 + row) 0 * b.getD (col * 4 + 1) 0 +
    a.getD (2 * 4 + row) 0 * b.getD (col * 4 + 2) 0 +
    a.getD (3 * 4 + row) 0 * b.getD (col * 4 + 3) 0

/-- Mat4Translate (gltf_loader.cpp:732-738). -/
def mat4Translate (t : Vec3) : Mat4 :=
  [1, 0, 0, 0, 0, 1, 0, 0, 0, 0, 1, 0, v3x t, v3y t, v3z t, 1]

/-- Mat4Scale (gltf_loader.cpp:740-747). -/
def mat4Scale (sc : Vec3) : Mat4 :=
  [v3x sc, 0, 0, 0, 0, v3y sc, 0, 0, 0, 0, v3z sc, 0, 0, 0, 0, 1]

/-- Mat4FromQuat (gltf_loader.cpp:757-774). -/
def mat4FromQuat (s : F → F) (qIn : Vec4) : Mat4 :=
  let q := quatNormalize s qIn
  let x := v4x q
  let y := v4y q
  let z := v4z q
  let w := v4w q
  [1 - 2 * (y * y + z * z), 2 * (x * y + z * w), 2 * (x * z - y * w), 0,
   2 * (x * y - z * w), 1 - 2 * (x * x + z * z), 2 * (y * z + x * w), 0,
   2 * (x * z + y * w), 2 * (y * z - x * w), 1 - 2 * (x * x + y * y), 0,
   0, 0, 0, 1]

/-- ComposeTRS (gltf_loader.cpp:837-839): T * (R * S). -/
def composeTRS (s : F → F) (t : Vec3) (r : Vec4) (sc : Vec3) : Mat4 :=
  mat4Mul (mat4Translate t) (mat4Mul (mat4FromQuat s r) (mat4Scale sc))

structure AnimVec3Track where
  times : List F := []
  values : List F := []
deriving DecidableEq, Inhabited

structure AnimQuatTrack where
  times : List F := []
  values : List F := []
deriving DecidableEq, Inhabited

structure NodeAnimTracks where
  translation : AnimVec3Track := {}
  rotationTrack : AnimQuatTrack := {}
  scale : AnimVec3Track := {}
deriving DecidableEq, Inhabited

/-- Fuel-indexed body of the bracketing-key search loop; the loop advances
`k` while `k+1 < count`, so `count - k` steps of fuel always suffice (when the
fuel runs out, `k` has reached `count` and the loop guard is false anyway). -/
def findBracketAux (times : List F) (t : F) : Nat → Nat → Nat
  | 0, k => k
  | fuel + 1, k =>
    if k + 1 < times.length ∧ ¬(times.getD k 0 ≤ t ∧ t ≤ times.getD (k + 1) 0) then
      findBracketAux times t fuel (k + 1)
    else k

/-- The bracketing-key search loop shared by SampleTrackVec3 and
SampleTrackQuat: `while (k+1 < count && !(t >= times[k] && t <= times[k+1]))
++k`. -/
def findBracket (times : List F) (t : F) (k : Nat) : Nat :=
  findBracketAux times t (times.length - k) k

/-- Interpolation weight `(t1 > t0) ? (t-t0)/(t1-t0) : 0` shared by both
samplers. -/
def lerpWeight (t0 t1 t : F) : F :=
  if t0 < t1 then (t - t0) / (t1 - t0) else 0

/-- SampleTrackVec3 (gltf_loader.cpp:776-799). -/
def sampleTrackVec3 (track : AnimVec3Track) (t : F) (fallback : Vec3) : Vec3 :=
  let count := track.times.length
  if count = 0 ∨ track.values.length < count * 3 then fallback
  else if count = 1 ∨ t ≤ track.times.getD 0 0 then
    (track.values.getD 0 0, track.values.getD 1 0, track.values.getD 2 0)
  else if track.times.getD (count - 1) 0 ≤ t then
    (track.values.getD ((count - 1) * 3) 0, track.values.getD ((count - 1) * 3 + 1) 0,
     track.values.getD ((count - 1) * 3 + 2) 0)
  else
    let k := findBracket track.times t 0
    let a := lerpWeight (track.times.getD k 0) (track.times.getD (k + 1) 0) t
    let i0 := k * 3
    let i1 := (k + 1) * 3
    (track.values.getD i0 0 + (track.values.getD i1 0 - track.values.getD i0 0) * a,
     track.values.getD (i0 + 1) 0 + (track.values.getD (i1 + 1) 0 - track.values.getD (i0 + 1) 0) * a,
     track.values.getD (i0 + 2) 0 + (track.values.getD (i1 + 2) 0 - track.values.getD (i0 + 2) 0) * a)

/-- Quaternion key `k` of a flat xyzw value array. -/
def quatAt (values : List F) (k : Nat) : Vec4 :=
  (values.getD (k * 4) 0, values.getD (k * 4 + 1) 0,
   values.getD (k * 4 + 2) 0, values.getD (k * 4 + 3) 0)

def qdot (a b : Vec4) : F :=
  v4x a * v4x b + v4y a * v4y b + v4z a * v4z b + v4w a * v4w b

def qneg (q : Vec4) : Vec4 := (-v4x q, -v4y q, -v4z q, -v4w q)

def qlerp (q0 q1 : Vec4) (a : F) : Vec4 :=
  (v4x q0 + (v4x q1 - v4x q0) * a, v4y q0 + (v4y q1 - v4y q0) * a,
   v4z q0 + (v4z q1 - v4z q0) * a, v4w q0 + (v4w q1 - v4w q0) * a)

/-- SampleTrackQuat (gltf_loader.cpp:801-835). -/
def sampleTrackQuat (s : F → F) (track : AnimQuatTrack) (t : F) (fallback : Vec4) : Vec4 :=
  let count := track.times.length
  if count = 0 ∨ track.values.length < count * 4 then fallback
  else if count = 1 ∨ t ≤ track.times.getD 0 0 then
    quatNormalize s (quatAt track.values 0)
  else if track.times.getD (count - 1) 0 ≤ t then
    quatNormalize s (quatAt track.values (count - 1))
  else
    let k := findBracket track.times t 0
    let a := lerpWeight (track.times.getD k 0) (track.times.getD (k + 1) 0) t
    let q0 := quatAt track.values k
    let q1 := quatAt track.values (k + 1)
    let q1c := if qdot q0 q1 < 0 then qneg q1 else q1
    quatNormalize s (qlerp q0 q1c a)

/-- ToLowerCopy (gltf_loader.cpp:88-93). -/
def toLowerStr (sIn : Str) : Str := sIn.map Char.toLower

/-- Substring after the last occurrence of `c`, applied only when `c` occurs
and is not the final character — the guarded `substr(pos+1)` of
CanonicalNodeName. -/
def afterLastSep (c : Char) (sIn : Str) : Str :=
  let suffix := (sIn.reverse.takeWhile (fun ch => ch ≠ c)).reverse
  if c ∈ sIn ∧ suffix ≠ [] then suffix else sIn

/-- CanonicalNodeName (gltf_loader.cpp:95-112): lowercase, strip up to the
last ':' then the last '|', keep alphanumerics. -/
def canonicalNodeName (name : Str) : Str :=
  let s1 := toLowerStr name
  let s2 := afterLastSep ':' s1
  let s3 := afterLastSep '|' s2
  s3.filter Char.isAlphanum

/-- The model_node_by_name map (gltf_loader.cpp:1039-1048): built with
`map[name] = i` over non-empty names, so the last index with a given name
wins. -/
def nodeByName (nodes : List Node) (key : Str) : Option Nat :=
  (List.range nodes.length).foldl
    (fun acc i =>
      match nodes[i]? with
      | some n => if n.name ≠ [] ∧ n.name = key then some i else acc
      | none => acc)
    none

/-- The model_node_by_canonical_name map: inserted only when absent, so the
first index with a given non-empty canonical name wins. -/
def nodeByCanonicalName (nodes : List Node) (key : Str) : Option Nat :=
  (List.range nodes.length).foldl
    (fun acc i =>
      match acc with
      | some _ => acc
      | none =>
        match nodes[i]? with
        | some n =>
          if n.name ≠ [] ∧ canonicalNodeName n.name ≠ [] ∧ canonicalNodeName n.name = key
          then some i else none
        | none => none)
    none

/-- Channel-target mapping (gltf_loader.cpp:1065-1083).  `sameRef` models the
pointer comparison `&anim_model == &model`; since the C++ declares
`tinygltf::Model anim_model = model;` (a by-value copy), that comparison is
always false, and the caller below passes `false` accordingly. -/
def mapChannelTarget (model anim_model : GModel) (sameRef : Bool) (target : Int) : Int :=
  if sameRef then target
  else if 0 ≤ target ∧ target < (anim_model.nodes.length : Int) then
    match idx? anim_model.nodes target with
    | none => -1
    | some nd =>
      match nodeByName model.nodes nd.name with
      | some i => (i : Int)
      | none =>
        match nodeByCanonicalName model.nodes (canonicalNodeName nd.name) with
        | some i => (i : Int)
        | none => -1
  else -1

/-- Last keyframe time of one channel's input accessor, with the bounds
checks of SampleAnimationDuration (gltf_loader.cpp:644-671); `none` models
every `continue`. -/
def lastInputTime (m : GModel) (anim : GAnimation) (ch : AnimationChannel) : Option F :=
  match idx? anim.samplers ch.sampler with
  | none => none
  | some sampler =>
    match idx? m.accessors sampler.input with
    | none => none
    | some accessor =>
      match resolveVB? m accessor with
      | none => none
      | some (view, buffer) =>
        let stride0 := accessorByteStride accessor view
        let stride := if stride0 = 0 then 4 else stride0
        if accessor.count = 0 then none
        else if buffer.byteLength < baseOf accessor view + (stride * (accessor.count - 1) + 4)
        then none
        else some (buffer.f32At (baseOf accessor view + stride * (accessor.count - 1)))

/-- SampleAnimationDuration (gltf_loader.cpp:644-673). -/
def sampleAnimationDuration (m : GModel) (anim : GAnimation) : F :=
  anim.channels.foldl
    (fun dur ch =>
      match lastInputTime m anim ch with
      | none => dur
      | some last => rmax dur last)
    0

/-- Per-node default pose (gltf_loader.cpp:996-1016). -/
structure NodeDefaults where
  tDef : Vec3
  rDef : Vec4
  sDef : Vec3
  matrix : Mat4
  hasMatrix : Bool
deriving DecidableEq, Inhabited

def nodeDefault (s : F → F) (n : Node) : NodeDefaults :=
  let t := if n.translation.length = 3 then
      (n.translation.getD 0 0, n.translation.getD 1 0, n.translation.getD 2 0)
    else (0, 0, 0)
  let r := if n.rotationQ.length = 4 then
      quatNormalize s (n.rotationQ.getD 0 0, n.rotationQ.getD 1 0,
        n.rotationQ.getD 2 0, n.rotationQ.getD 3 0)
    else (0, 0, 0, 1)
  let sc := if n.scale.length = 3 then
      (n.scale.getD 0 0, n.scale.getD 1 0, n.scale.getD 2 0)
    else (1, 1, 1)
  if n.matrix.length = 16 then
    { tDef := t, rDef := r, sDef := sc,
      matrix := (List.range 16).map (fun k => n.matrix.getD k 0), hasMatrix := true }
  else
    { tDef := t, rDef := r, sDef := sc, matrix := composeTRS s t r sc, hasMatrix := false }

def nodeDefaults (s : F → F) (nodes : List Node) : List NodeDefaults :=
  nodes.map (nodeDefault s)

/-- Parent indices from scanning every node's child list
(gltf_loader.cpp:987-994); roots keep -1, later writes win. -/
def buildParents (nodes : List Node) : List Int :=
  (List.range nodes.length).foldl
    (fun parents i =>
      match nodes[i]? with
      | none => parents
      | some n =>
        n.children.foldl
          (fun ps child =>
            if 0 ≤ child ∧ child < (ps.length : Int) then ps.set child.toNat (i : Int) else ps)
          parents)
    (List.replicate nodes.length (-1))

/-- Per-joint inverse bind matrices (gltf_loader.cpp:976-985): identity
defaults, overwritten by the decoded MAT4 accessor for the first
`min(joints, decoded)` joints when the accessor resolves and reads. -/
def inverseBindMats (m : GModel) (skin : Skin) : List Mat4 :=
  let idmats := List.replicate skin.joints.length mat4Identity
  match idx? m.accessors skin.inverseBindMatrices with
  | none => idmats
  | some acc =>
    match ReadAccessorMat4 m acc with
    | none => idmats
    | some ibm =>
      let count := Nat.min skin.joints.length (ibm.length / 16)
      (List.range skin.joints.length).map fun i =>
        if i < count then (List.range 16).map (fun k => ibm.getD (i * 16 + k) 0)
        else mat4Identity

structure TrackBuildState where
  tracks : List NodeAnimTracks
  duration : F
deriving DecidableEq, Inhabited

/-- `tracks[ni].component = ...` on the per-node track array. -/
def updateTrackAt (tracks : List NodeAnimTracks) (ni : Nat)
    (f : NodeAnimTracks → NodeAnimTracks) : List NodeAnimTracks :=
  tracks.set ni (f (tracks.getD ni {}))

/-- One channel of the track-building loop (gltf_loader.cpp:1056-1114).
Every early `continue` returns the state unchanged — except that the duration
update from the input times happens before the target-path dispatch and is
kept even when the output read fails. -/
def applyChannel (model anim_model : GModel) (anim : GAnimation) (sameRef : Bool)
    (st : TrackBuildState) (ch : AnimationChannel) : TrackBuildState :=
  match idx? anim.samplers ch.sampler with
  | none => st
  | some sampler =>
    if ¬(0 ≤ sampler.input ∧ sampler.input < (anim_model.accessors.length : Int) ∧
         0 ≤ sampler.output ∧ sampler.output < (anim_model.accessors.length : Int)) then st
    else
      let model_node := mapChannelTarget model anim_model sameRef ch.target_node
      if model_node < 0 ∨ (st.tracks.length : Int) ≤ model_node then st
      else
        match idx? anim_model.accessors sampler.input with
        | none => st
        | some inAcc =>
          match ReadAccessor anim_model inAcc 1 with
          | none => st
          | some in_times =>
            let dur := match in_times.getLast? with
                       | none => st.duration
                       | some last => rmax st.duration last
            let st1 : TrackBuildState := { st with duration := dur }
            let ni := model_node.toNat
            match idx? anim_model.accessors sampler.output with
            | none => st1
            | some outAcc =>
              if ch.target_path = "translation".data then
                match ReadAccessor anim_model outAcc 3 with
                | none => st1
                | some vals =>
                  { st1 with tracks := updateTrackAt st1.tracks ni fun tr =>
                      { tr with translation := { times := in_times, values := vals } } }
              else if ch.target_path = "rotation".data then
                match ReadAccessor anim_model outAcc 4 with
                | none => st1
                | some vals =>
                  { st1 with tracks := updateTrackAt st1.tracks ni fun tr =>
                      { tr with rotationTrack := { times := in_times, values := vals } } }
              else if ch.target_path = "scale".data then
                match ReadAccessor anim_model outAcc 3 with
                | none => st1
                | some vals =>
                  { st1 with tracks := updateTrackAt st1.tracks ni fun tr =>
                      { tr with scale := { times := in_times, values := vals } } }
              else st1

/-- Track building over the first animation's channels, starting from the
SampleAnimationDuration value (gltf_loader.cpp:1050-1114). -/
def buildTracks (model anim_model : GModel) (sameRef : Bool) (anim : GAnimation) :
    TrackBuildState :=
  anim.channels.foldl (applyChannel model anim_model anim sameRef)
    { tracks := List.replicate model.nodes.length {},
      duration := sampleAnimationDuration anim_model anim }

/-- Frame count at the fixed 30 Hz sample rate (gltf_loader.cpp:1124-1127). -/
def frameCountOf (duration : F) : Nat :=
  if (1 : F) / 10000 < duration then Nat.max 2 (Nat.ceil (duration * 30) + 1) else 1

/-- Sample time of frame `f` (gltf_loader.cpp:1137). -/
def sampleTimeOf (duration : F) (fc : Nat) (f : Nat) : F :=
  if 1 < fc then duration * ((f : F) / ((fc - 1 : Nat) : F)) else 0

/-- Per-node local matrices at sample time `t` (gltf_loader.cpp:1139-1149):
matrix-authored nodes use their static matrix; others compose sampled TRS
with per-component default fallbacks. -/
def localMatsAt (s : F → F) (defaults : List NodeDefaults) (tracks : List NodeAnimTracks)
    (t : F) : List Mat4 :=
  (List.range defaults.length).map fun ni =>
    let d := defaults.getD ni default
    if d.hasMatrix then d.matrix
    else
      let tr := tracks.getD ni {}
      composeTRS s (sampleTrackVec3 tr.translation t d.tDef)
        (sampleTrackQuat s tr.rotationTrack t d.rDef)
        (sampleTrackVec3 tr.scale t d.sDef)

/-- Global transform of node `ni`: the memoized recursive closure
compute_global (gltf_loader.cpp:1151-1165) composes each node's local matrix
onto its parent's global matrix, roots using their local matrix.  Memoization
does not change values, and the C++ recursion terminates exactly when parent
chains are acyclic, in which case every chain is shorter than the node count,
so fuel = number of nodes reproduces it. -/
def computeGlobal (parents : List Int) (locals : List Mat4) : Nat → Nat → Mat4
  | 0, ni => locals.getD ni mat4Identity
  | fuel + 1, ni =>
    let p := parents.getD ni (-1)
    if 0 ≤ p then
      mat4Mul (computeGlobal parents locals fuel p.toNat) (locals.getD ni mat4Identity)
    else locals.getD ni mat4Identity

/-- Per-joint skin matrix of one frame (gltf_loader.cpp:1167-1174):
`global(joint node) * inverseBind(joint)`, identity for out-of-range joint
node indices. -/
def jointMatrixAt (parents : List Int) (locals : List Mat4) (nNodes : Nat)
    (skin : Skin) (ibms : List Mat4) (ji : Nat) : Mat4 :=
  let node_index := skin.joints.getD ji (-1)
  if 0 ≤ node_index ∧ node_index < (nNodes : Int) then
    mat4Mul (computeGlobal parents locals nNodes node_index.toNat) (ibms.getD ji mat4Identity)
  else mat4Identity

/-- The 16-float blocks of one frame, in skin-joint order. -/
def framePalette (s : F → F) (defaults : List NodeDefaults) (tracks : List NodeAnimTracks)
    (parents : List Int) (skin : Skin) (ibms : List Mat4) (duration : F) (fc : Nat)
    (fi : Nat) : List F :=
  let locals := localMatsAt s defaults tracks (sampleTimeOf duration fc fi)
  (List.range skin.joints.length).flatMap fun ji =>
    jointMatrixAt parents locals defaults.length skin ibms ji

/-- The flat palette buffer: the per-(frame, joint) writes at
`dst = (fi*J + ji)*16` (gltf_loader.cpp:1172-1173) tile the resized buffer
exactly, so it equals this concatenation in `[frame][joint]` order. -/
def bakePalettes (s : F → F) (defaults : List NodeDefaults) (tracks : List NodeAnimTracks)
    (parents : List Int) (skin : Skin) (ibms : List Mat4) (duration : F) (fc : Nat) :
    List F :=
  (List.range fc).flatMap (framePalette s defaults tracks parents skin ibms duration fc)

/-- GltfSkinningFrames (gltf_loader.h). -/
structure GltfSkinningFrames where
  joint_count : Nat := 0
  frame_count : Nat := 0
  duration : F := 0
  palettes : List F := []
deriving DecidableEq, Inhabited

/-- LoadGltfSkinningFrames (gltf_loader.cpp:942-1178).  `buildTracks` receives
`sameRef := false` because the C++ binds `tinygltf::Model anim_model = model;`
by value, making the later `&anim_model == &model` comparison always false
even when both paths resolve to the same file. -/
def loadGltfSkinningFrames (s : F → F) (fs : Str → Except Str GModel)
    (model_path animation_path : Str) : Except Str GltfSkinningFrames :=
  let model_base := resolvedBase model_path
  match fs model_base with
  | .error e => .error e
  | .ok model =>
    match model.skins with
    | [] => .error "No skins in model".data
    | skin :: _ =>
      if skin.joints = [] then .error "Skin has no joints".data
      else
        let ibms := inverseBindMats model skin
        let parents := buildParents model.nodes
        let defaults := nodeDefaults s model.nodes
        let anim_base := resolvedBase animation_path
        let animRes : Except Str GModel :=
          if anim_base ≠ [] ∧ anim_base ≠ model_base then fs anim_base else .ok model
        match animRes with
        | .error e => .error e
        | .ok anim_model =>
          match anim_model.animations with
          | [] => .error "No animations".data
          | anim :: _ =>
            let st := buildTracks model anim_model false anim
            let fc := frameCountOf st.duration
            .ok { joint_count := skin.joints.length
                  frame_count := fc
                  duration := st.duration
                  palettes := bakePalettes s defaults st.tracks parents skin ibms st.duration fc }

structure GltfAnimationClip where
  name : Str
  duration : F
deriving DecidableEq, Inhabited

structure GltfAnimationLibrary where
  clips : List GltfAnimationClip := []
deriving DecidableEq, Inhabited

/-- AnimationCacheEntry (gltf_loader.cpp:25-29). -/
structure AnimationCacheEntry where
  library : GltfAnimationLibrary := {}
  error : Str := []
  loaded : Bool := false
deriving DecidableEq, Inhabited

/-- The process-wide g_animation_cache, modelled as explicit state. -/
abbrev AnimCache : Type := List (Str × AnimationCacheEntry)

def cacheFind (c : AnimCache) (k : Str) : Option AnimationCacheEntry :=
  (c.find? (fun kv => kv.1 = k)).map (fun kv => kv.2)

def cacheInsert (c : AnimCache) (k : Str) (v : AnimationCacheEntry) : AnimCache :=
  match c with
  | [] => [(k, v)]
  | kv :: tl => if kv.1 = k then (k, v) :: tl else kv :: cacheInsert tl k v

/-- Clip list of a decoded scene (gltf_loader.cpp:913-917): unnamed clips
become "default", durations from SampleAnimationDuration. -/
def buildLibrary (model : GModel) : GltfAnimationLibrary :=
  { clips := model.animations.map fun anim =>
      { name := if anim.name = [] then "default".data else anim.name
        duration := sampleAnimationDuration model anim } }

/-- Cache-miss path of LoadGltfAnimationLibrary (gltf_loader.cpp:892-939).
The out-parameter library is `none` on a fresh decode failure (it is never
assigned there). -/
def loadAnimationLibraryFresh (fs : Str → Except Str GModel) (cache : AnimCache)
    (base : Str) : (Bool × Option GltfAnimationLibrary × Str) × AnimCache :=
  match fs base with
  | .error e => ((false, none, e), cacheInsert cache base { error := e, loaded := true })
  | .ok model =>
    if model.animations = [] then
      ((false, none, "No animations".data),
       cacheInsert cache base { error := "No animations".data, loaded := true })
    else
      let lib := buildLibrary model
      ((true, some lib, []), cacheInsert cache base { library := lib, loaded := true })

/-- LoadGltfAnimationLibrary (gltf_loader.cpp:872-940): fragment-stripped
path as memoization key; a loaded cache entry replays its stored result
(success when its stored error is empty) without consulting `fs`. -/
def loadGltfAnimationLibrary (fs : Str → Except Str GModel) (cache : AnimCache)
    (path : Str) : (Bool × Option GltfAnimationLibrary × Str) × AnimCache :=
  let base := resolvedBase path
  match cacheFind cache base with
  | some entry =>
    if entry.loaded then ((entry.error.isEmpty, some entry.library, entry.error), cache)
    else loadAnimationLibraryFresh fs cache base
  | none => loadAnimationLibraryFresh fs cache base

/-
Concrete scenes used to evaluate the definitions (witnesses and
counterexamples).
-/

/-- Buffer whose float at byte offset 4 is 1/30 and 0 elsewhere (used as a
two-key time accessor [0, 1/30]). -/
def exBuf : GltfBuffer :=
  { byteLength := 1000, f32At := fun off => if off = 4 then 1 / 30 else 0,
    u8At := fun _ => 0, u16At := fun _ => 0, u32At := fun _ => 0 }

/-- An unnamed node with no authored transform. -/
def exNode : Node :=
  { name := [], children := [], mesh := -1, translation := [], rotationQ := [],
    scale := [], matrix := [] }

/-- One-node, one-joint scene with a single empty animation clip. -/
def trivialModel : GModel :=
  { nodes := [exNode], meshes := [],
    skins := [{ joints := [0], inverseBindMatrices := -1 }],
    animations := [{ name := [], channels := [], samplers := [] }],
    accessors := [], bufferViews := [], buffers := [] }

def exTimeAcc : Accessor :=
  { componentType := .f32, type := .scalar, bufferView := 0, byteOffset := 0, count := 2 }

def exRotAcc : Accessor :=
  { componentType := .f32, type := .vec4, bufferView := 0, byteOffset := 8, count := 2 }

/-- Same-file animation scene: one unnamed node with a skin joint and one
rotation channel with a valid in-range target node index 0. -/
def c2Model : GModel :=
  { nodes := [exNode], meshes := [],
    skins := [{ joints := [0], inverseBindMatrices := -1 }],
    animations := [{ name := [],
                     channels := [{ sampler := 0, target_node := 0,
                                    target_path := "rotation".data }],
                     samplers := [{ input := 0, output := 1 }] }],
    accessors := [exTimeAcc, exRotAcc],
    bufferViews := [{ buffer := 0, byteOffset := 0, byteStride := 0 }],
    buffers := [exBuf] }

def exVec3Acc : Accessor :=
  { componentType := .f32, type := .vec3, bufferView := 0, byteOffset := 0, count := 3 }

/-- Mixed primitives: one provides NORMAL, the other does not. -/
def c1MixedModel : GModel :=
  { nodes := [], skins := [], animations := [],
    meshes := [{ name := [],
                 primitives := [
                   { attributes := [("POSITION".data, 0), ("NORMAL".data, 1)], indices := -1 },
                   { attributes := [("POSITION".data, 0)], indices := -1 }] }],
    accessors := [exVec3Acc, exVec3Acc],
    bufferViews := [{ buffer := 0, byteOffset := 0, byteStride := 0 }],
    buffers := [exBuf] }

/-- One primitive providing only POSITION (uniform attribute provision). -/
def uniModel : GModel :=
  { nodes := [], skins := [], animations := [],
    meshes := [{ name := [],
                 primitives := [
                   { attributes := [("POSITION".data, 0), ("NORMAL".data, 1)],
                     indices := -1 }] }],
    accessors := [exVec3Acc, exVec3Acc],
    bufferViews := [{ buffer := 0, byteOffset := 0, byteStride := 0 }],
    buffers := [exBuf] }

/-- Buffer holding the positions (0,0,0), (1,0,0), (0,1e-7,0): a triangle with
near-zero (but non-zero) area. -/
def c8Buf : GltfBuffer :=
  { byteLength := 1000,
    f32At := fun off => if off = 12 then 1 else if off = 28 then 1 / 10000000 else 0,
    u8At := fun _ => 0, u16At := fun _ => 0, u32At := fun _ => 0 }

/-- One primitive without normals whose single triangle is nearly degenerate. -/
def c8Model : GModel :=
  { nodes := [], skins := [], animations := [],
    meshes := [{ name := [],
                 primitives := [{ attributes := [("POSITION".data, 0)], indices := -1 }] }],
    accessors := [exVec3Acc],
    bufferViews := [{ buffer := 0, byteOffset := 0, byteStride := 0 }],
    buffers := [c8Buf] }

/-- One mesh whose only primitive lacks a POSITION attribute. -/
def c10Model : GModel :=
  { nodes := [], skins := [], animations := [],
    meshes := [{ name := [],
                 primitives := [{ attributes := [("NORMAL".data, 0)], indices := -1 }] }],
    accessors := [exVec3Acc],
    bufferViews := [{ buffer := 0, byteOffset := 0, byteStride := 0 }],
    buffers := [exBuf] }

/-
Theorems.
-/

section ClaimProofs

attribute [local semireducible] Rat.mul Rat.inv Rat.add Rat.sub Rat.ofScientific

lemma loadGltfSkinningFrames_eq_of_pinned (s : F → F) (fs : Str → Except Str GModel)
    (mp ap : Str) (model : GModel) (skin : Skin) (rest : List Skin)
    (anim_model : GModel) (anim : GAnimation) (arest : List GAnimation)
    (hm : fs (resolvedBase mp) = .ok model)
    (hsk : model.skins = skin :: rest)
    (hj : skin.joints ≠ [])
    (ham : (if resolvedBase ap ≠ [] ∧ resolvedBase ap ≠ resolvedBase mp
            then fs (resolvedBase ap) else .ok model) = .ok anim_model)
    (han : anim_model.animations = anim :: arest) :
    loadGltfSkinningFrames s fs mp ap =
      .ok { joint_count := skin.joints.length
            frame_count := frameCountOf (buildTracks model anim_model false anim).duration
            duration := (buildTracks model anim_model false anim).duration
            palettes := bakePalettes s (nodeDefaults s model.nodes)
              (buildTracks model anim_model false anim).tracks (buildParents model.nodes)
              skin (inverseBindMats model skin)
              (buildTracks model anim_model false anim).duration
              (frameCountOf (buildTracks model anim_model false anim).duration) } := by
  unfold loadGltfSkinningFrames
  dsimp only
  rw [hm]
  dsimp only
  rw [hsk]
  dsimp only
  rw [if_neg hj, ham]
  dsimp only
  rw [han]

lemma skinning_ok_inv (s : F → F) (fs : Str → Except Str GModel) (mp ap : Str)
    (sf : GltfSkinningFrames) (h : loadGltfSkinningFrames s fs mp ap = .ok sf) :
    sf.frame_count = frameCountOf sf.duration := by
  unfold loadGltfSkinningFrames at h
  dsimp only at h
  rcases hm : fs (resolvedBase mp) with e | model <;> rw [hm] at h <;> dsimp only at h
  · simp at h
  · rcases hsk : model.skins with _ | ⟨skin, rest⟩ <;> rw [hsk] at h <;> dsimp only at h
    · simp at h
    · by_cases hj : skin.joints = []
      · rw [if_pos hj] at h; simp at h
      · rw [if_neg hj] at h
        rcases ham : (if resolvedBase ap ≠ [] ∧ resolvedBase ap ≠ resolvedBase mp
              then fs (resolvedBase ap) else .ok model) with e | anim_model <;>
          rw [ham] at h <;> dsimp only at h
        · simp at h
        · rcases han : anim_model.animations with _ | ⟨anim, arest⟩ <;>
            rw [han] at h <;> dsimp only at h
          · simp at h
          · have hsf := (Except.ok.injEq _ _).mp h.symm
            rw [hsf]

/-- Claim C4: for every successful bake, the frame count equals
`max(2, ceil(duration*30)+1)` when `duration > 0.0001` and 1 otherwise
(duration 0 gives 1, duration 1.0 gives 31), and for frame_count > 1 the
sample time of frame f is `duration * f/(frame_count-1)`, evenly spaced from
0 to duration inclusive. -/
theorem skinning_frame_count_and_sample_times (s : F → F) (fs : Str → Except Str GModel)
    (mp ap : Str) (sf : GltfSkinningFrames)
    (h : loadGltfSkinningFrames s fs mp ap = .ok sf) :
    (sf.frame_count =
      if (1 : F) / 10000 < sf.duration then Nat.max 2 (Nat.ceil (sf.duration * 30) + 1)
      else 1) ∧
    frameCountOf 0 = 1 ∧ frameCountOf 1 = 31 ∧
    (∀ f : Nat, 1 < sf.frame_count →
      sampleTimeOf sf.duration sf.frame_count f =
        sf.duration * (f : F) / ((sf.frame_count - 1 : Nat) : F)) ∧
    sampleTimeOf sf.duration sf.frame_count 0 = 0 ∧
    (1 < sf.frame_count →
      sampleTimeOf sf.duration sf.frame_count (sf.frame_count - 1) = sf.duration) := by
  refine ⟨?_, by decide, by decide, ?_, ?_, ?_⟩
  · rw [skinning_ok_inv s fs mp ap sf h]
    unfold frameCountOf
    rfl
  · intro f hfc
    unfold sampleTimeOf
    rw [if_pos hfc, mul_div_assoc]
  · unfold sampleTimeOf
    split
    · simp
    · rfl
  · intro hfc
    unfold sampleTimeOf
    rw [if_pos hfc]
    have hne : ((sf.frame_count - 1 : Nat) : F) ≠ 0 := by
      have h1 : 1 ≤ sf.frame_count - 1 := by omega
      exact_mod_cast Nat.one_le_iff_ne_zero.mp h1
    rw [div_self hne, mul_one]

/-- Witness for C4 at the one-joint scene with an empty clip: the bake
succeeds with duration 0 and frame count 1, and the sample-time facts hold. -/
theorem skinning_frame_count_witness :
    sampleTimeOf (0 : F) 1 0 = 0 ∧ frameCountOf 0 = 1 ∧ frameCountOf 1 = 31 := by
  have h := skinning_frame_count_and_sample_times (fun x => x) (fun _ => .ok trivialModel)
    [] [] { joint_count := 1, frame_count := 1, duration := 0, palettes := mat4Identity }
    (by rfl)
  exact ⟨h.2.2.2.2.1, h.2.1, h.2.2.1⟩

lemma flatMap_range_length_const {α : Type} (g : Nat → List α) (L n : Nat)
    (hlen : ∀ i, i < n → (g i).length = L) :
    ((List.range n).flatMap g).length = n * L := by
  induction n with
  | zero => simp
  | succ m ih =>
    rw [List.range_succ, List.flatMap_append]
    simp only [List.flatMap_cons, List.flatMap_nil, List.append_nil, List.length_append]
    rw [ih (fun i hi => hlen i (by omega)), hlen m (by omega), Nat.succ_mul]

lemma flatMap_range_getD {α : Type} (g : Nat → List α) (L n : Nat)
    (hlen : ∀ i, i < n → (g i).length = L) (i k : Nat) (hi : i < n) (hk : k < L) (d : α) :
    ((List.range n).flatMap g).getD (i * L + k) d = (g i).getD k d := by
  induction n with
  | zero => omega
  | succ m ih =>
    rw [List.range_succ, List.flatMap_append]
    simp only [List.flatMap_cons, List.flatMap_nil, List.append_nil]
    have hlft : ((List.range m).flatMap g).length = m * L :=
      flatMap_range_length_const g L m (fun j hj => hlen j (by omega))
    by_cases him : i < m
    · rw [List.getD_append]
      · exact ih (fun j hj => hlen j (by omega)) him
      · rw [hlft]
        calc i * L + k < i * L + L := by omega
          _ = (i + 1) * L := by ring
          _ ≤ m * L := Nat.mul_le_mul_right L (by omega)
    · have him' : i = m := by omega
      subst him'
      have hge : ((List.range i).flatMap g).length ≤ i * L + k := by rw [hlft]; omega
      rw [List.getD_append_right _ _ _ _ hge, hlft]
      congr 1
      omega

lemma mat4Mul_length (a b : Mat4) : (mat4Mul a b).length = 16 := by
  simp [mat4Mul]

lemma jointMatrixAt_length (parents : List Int) (locals : List Mat4) (nNodes : Nat)
    (skin : Skin) (ibms : List Mat4) (ji : Nat) :
    (jointMatrixAt parents locals nNodes skin ibms ji).length = 16 := by
  unfold jointMatrixAt
  dsimp only
  split
  · exact mat4Mul_length _ _
  · rfl

lemma framePalette_length (s : F → F) (defaults : List NodeDefaults)
    (tracks : List NodeAnimTracks) (parents : List Int) (skin : Skin) (ibms : List Mat4)
    (duration : F) (fc fi : Nat) :
    (framePalette s defaults tracks parents skin ibms duration fc fi).length =
      skin.joints.length * 16 := by
  unfold framePalette
  exact flatMap_range_length_const _ 16 _ (fun i _ => jointMatrixAt_length _ _ _ _ _ _)

lemma bakePalettes_length (s : F → F) (defaults : List NodeDefaults)
    (tracks : List NodeAnimTracks) (parents : List Int) (skin : Skin) (ibms : List Mat4)
    (duration : F) (fc : Nat) :
    (bakePalettes s defaults tracks parents skin ibms duration fc).length =
      fc * (skin.joints.length * 16) := by
  unfold bakePalettes
  exact flatMap_range_length_const _ _ _
    (fun i _ => framePalette_length s defaults tracks parents skin ibms duration fc i)

lemma getD_replicate_self {α : Type} (n j : Nat) (a : α) :
    (List.replicate n a).getD j a = a := by
  induction n generalizing j with
  | zero => simp
  | succ m ih => cases j <;> simp [List.replicate, ih]

/-- Claim C3: for every successful LoadGltfSkinningFrames call, the palette
buffer has length `frame_count * joint_count * 16`; the 16 floats at offset
`(f*joint_count + j)*16` are the column-major matrix
`global(joint j's node, at frame f's sample time) * inverseBind(j)`, where
`global` multiplies each node's sampled local matrix onto its parent chain
(computeGlobal); and the inverse-bind factor is the identity for every joint
when the skin's inverse-bind accessor does not resolve. -/
theorem skinning_palette_layout (s : F → F) (fs : Str → Except Str GModel)
    (mp ap : Str) (sf : GltfSkinningFrames)
    (model : GModel) (skin : Skin) (rest : List Skin)
    (anim_model : GModel) (anim : GAnimation) (arest : List GAnimation)
    (hm : fs (resolvedBase mp) = .ok model)
    (hsk : model.skins = skin :: rest)
    (hj : skin.joints ≠ [])
    (ham : (if resolvedBase ap ≠ [] ∧ resolvedBase ap ≠ resolvedBase mp
            then fs (resolvedBase ap) else .ok model) = .ok anim_model)
    (han : anim_model.animations = anim :: arest)
    (hok : loadGltfSkinningFrames s fs mp ap = .ok sf) :
    sf.palettes.length = sf.frame_count * sf.joint_count * 16 ∧
    (∀ f j k, f < sf.frame_count → j < sf.joint_count → k < 16 →
      ∀ node : Int, skin.joints.getD j (-1) = node → 0 ≤ node →
        node < (model.nodes.length : Int) →
        sf.palettes.getD ((f * sf.joint_count + j) * 16 + k) 0 =
          (mat4Mul
            (computeGlobal (buildParents model.nodes)
              (localMatsAt s (nodeDefaults s model.nodes)
                (buildTracks model anim_model false anim).tracks
                (sampleTimeOf sf.duration sf.frame_count f))
              model.nodes.length node.toNat)
            ((inverseBindMats model skin).getD j mat4Identity)).getD k 0) ∧
    ((idx? model.accessors skin.inverseBindMatrices).isNone = true →
      ∀ j, (inverseBindMats model skin).getD j mat4Identity = mat4Identity) := by
  have heq := loadGltfSkinningFrames_eq_of_pinned s fs mp ap model skin rest
    anim_model anim arest hm hsk hj ham han
  rw [heq] at hok
  have hsf := (Except.ok.injEq _ _).mp hok
  subst hsf
  dsimp only
  have hdeflen : (nodeDefaults s model.nodes).length = model.nodes.length :=
    List.length_map _ _
  refine ⟨?_, ?_, ?_⟩
  · rw [bakePalettes_length, Nat.mul_assoc]
  · intro f j k hf hjlt hk node hnode hge hlt
    have hidx : (f * skin.joints.length + j) * 16 + k =
        f * (skin.joints.length * 16) + (j * 16 + k) := by ring
    rw [hidx]
    unfold bakePalettes
    rw [flatMap_range_getD _ (skin.joints.length * 16) _
      (fun i _ => framePalette_length _ _ _ _ _ _ _ _ i) f (j * 16 + k) hf (by omega) 0]
    unfold framePalette
    dsimp only
    rw [flatMap_range_getD _ 16 _ (fun i _ => jointMatrixAt_length _ _ _ _ _ _)
      j k hjlt hk 0]
    unfold jointMatrixAt
    dsimp only
    rw [hnode, if_pos ⟨hge, by rw [hdeflen]; exact hlt⟩, hdeflen]
  · intro hnone j
    unfold inverseBindMats
    rcases hidx : idx? model.accessors skin.inverseBindMatrices with _ | acc
    · dsimp only
      exact getD_replicate_self _ _ _
    · rw [hidx] at hnone
      simp at hnone

/-- Witness for C3 at the one-joint scene: the palette is a single identity
matrix laid out as frame 0, joint 0. -/
theorem skinning_palette_layout_witness :
    (mat4Identity.length = 1 * 1 * 16) ∧
    mat4Identity.getD ((0 * 1 + 0) * 16 + 0) (0 : F) =
      (mat4Mul
        (computeGlobal (buildParents trivialModel.nodes)
          (localMatsAt (fun x => x) (nodeDefaults (fun x => x) trivialModel.nodes)
            (buildTracks trivialModel trivialModel false
              { name := [], channels := [], samplers := [] }).tracks
            (sampleTimeOf 0 1 0))
          trivialModel.nodes.length (Int.toNat 0))
        ((inverseBindMats trivialModel { joints := [0], inverseBindMatrices := -1 }).getD 0
          mat4Identity)).getD 0 0 := by
  have h := skinning_palette_layout (fun x => x) (fun _ => .ok trivialModel) [] []
    { joint_count := 1, frame_count := 1, duration := 0, palettes := mat4Identity }
    trivialModel { joints := [0], inverseBindMatrices := -1 } []
    trivialModel { name := [], channels := [], samplers := [] } []
    (by rfl) (by rfl) (by decide) (by rfl) (by rfl) (by rfl)
  exact ⟨h.1, h.2.1 0 0 0 (by decide) (by decide) (by decide) 0 (by decide) (by decide)
    (by decide)⟩

/-- Claim C2 (evaluated at the failing input): when model path and animation
path are the same file, channels are still remapped by node name because
`anim_model` is a by-value copy of `model` and the `&anim_model == &model`
test can never be true.  At a same-file scene whose animated node is unnamed:
the always-taken name-mapping branch drops the channel (target -1) although
its target index 0 is valid and the dead direct branch would keep it; the
rotation track stays empty; and the baked palette stays at the bind pose
(m00 = 1 in both frames) instead of reflecting the rotation channel. -/
theorem same_file_channels_are_remapped_eval :
    mapChannelTarget c2Model c2Model false 0 = -1 ∧
    mapChannelTarget c2Model c2Model true 0 = 0 ∧
    ((buildTracks c2Model c2Model false
        { name := [],
          channels := [{ sampler := 0, target_node := 0, target_path := "rotation".data }],
          samplers := [{ input := 0, output := 1 }] }).tracks.getD 0
        default).rotationTrack.times = [] ∧
    ((buildTracks c2Model c2Model true
        { name := [],
          channels := [{ sampler := 0, target_node := 0, target_path := "rotation".data }],
          samplers := [{ input := 0, output := 1 }] }).tracks.getD 0
        default).rotationTrack.times = [0, 1 / 30] ∧
    (loadGltfSkinningFrames (fun x => x) (fun _ => .ok c2Model)
        "m.glb".data "m.glb".data).toOption.map
      (fun sf => (sf.frame_count, sf.palettes.getD 0 0, sf.palettes.getD 16 0)) =
      some (2, 1, 1) := by
  decide

lemma cacheFind_insert (c : AnimCache) (k : Str) (v : AnimationCacheEntry) :
    cacheFind (cacheInsert c k v) k = some v := by
  induction c with
  | nil => simp [cacheInsert, cacheFind, List.find?]
  | cons hd tl ih =>
    unfold cacheInsert
    by_cases hh : hd.1 = k
    · rw [if_pos hh]
      simp [cacheFind, List.find?]
    · rw [if_neg hh]
      unfold cacheFind at ih ⊢
      simp only [List.find?]
      rw [decide_eq_false hh]
      exact ih

lemma loadLibFresh_shape (fs : Str → Except Str GModel) (cache : AnimCache) (base : Str)
    (hfs : ∀ q e, fs q = .error e → e ≠ []) :
    ∃ entry : AnimationCacheEntry,
      cacheFind (loadAnimationLibraryFresh fs cache base).2 base = some entry ∧
      entry.loaded = true ∧
      (loadAnimationLibraryFresh fs cache base).1.1 = entry.error.isEmpty ∧
      (loadAnimationLibraryFresh fs cache base).1.2.2 = entry.error ∧
      (entry.error.isEmpty = true →
        (loadAnimationLibraryFresh fs cache base).1.2.1 = some entry.library) := by
  unfold loadAnimationLibraryFresh
  rcases hq : fs base with e | model <;> dsimp only
  · have he : e ≠ [] := hfs base e hq
    have hie : e.isEmpty = false := by
      cases e
      · exact absurd rfl he
      · rfl
    refine ⟨{ error := e, loaded := true }, cacheFind_insert _ _ _, rfl, ?_, rfl, ?_⟩
    · simp [hie]
    · simp [hie]
  · by_cases hA : model.animations = []
    · rw [if_pos hA]
      refine ⟨{ error := "No animations".data, loaded := true }, cacheFind_insert _ _ _,
        rfl, ?_, rfl, ?_⟩
      · rfl
      · intro hcontra
        exact absurd hcontra (by decide)
    · rw [if_neg hA]
      exact ⟨{ library := buildLibrary model, error := [], loaded := true },
        cacheFind_insert _ _ _, rfl, rfl, rfl, fun _ => rfl⟩

lemma loadLib_hit (fs : Str → Except Str GModel) (cache : AnimCache) (p : Str)
    (entry : AnimationCacheEntry)
    (hfind : cacheFind cache (resolvedBase p) = some entry) (hl : entry.loaded = true) :
    loadGltfAnimationLibrary fs cache p =
      ((entry.error.isEmpty, some entry.library, entry.error), cache) := by
  unfold loadGltfAnimationLibrary
  dsimp only
  rw [hfind]
  dsimp only
  rw [if_pos hl]

lemma loadLib_shape (fs : Str → Except Str GModel) (cache : AnimCache) (p : Str)
    (hfs : ∀ q e, fs q = .error e → e ≠ []) :
    ∃ entry : AnimationCacheEntry,
      cacheFind (loadGltfAnimationLibrary fs cache p).2 (resolvedBase p) = some entry ∧
      entry.loaded = true ∧
      (loadGltfAnimationLibrary fs cache p).1.1 = entry.error.isEmpty ∧
      (loadGltfAnimationLibrary fs cache p).1.2.2 = entry.error ∧
      (entry.error.isEmpty = true →
        (loadGltfAnimationLibrary fs cache p).1.2.1 = some entry.library) := by
  unfold loadGltfAnimationLibrary
  dsimp only
  rcases hf : cacheFind cache (resolvedBase p) with _ | entry <;> dsimp only
  · exact loadLibFresh_shape fs cache (resolvedBase p) hfs
  · by_cases hl : entry.loaded = true
    · rw [if_pos hl]
      exact ⟨entry, hf, hl, rfl, rfl, fun _ => rfl⟩
    · rw [if_neg hl]
      exact loadLibFresh_shape fs cache (resolvedBase p) hfs

/-- Claim C9: two successive LoadGltfAnimationLibrary calls whose paths share
the fragment-stripped base replay the stored result of the first — same
success bit and error message, and the same clip list on cached success —
independently of the file system (`fs2` is arbitrary, so the file is not
re-decoded), leaving the cache unchanged; and with no prior cache entry, a
decodable scene with zero animations always fails with "No animations".  The
hypothesis on `fs1` reflects that LoadTinyGltfModelFromFile never reports an
empty error message. -/
theorem animation_library_cache_replay (fs1 fs2 : Str → Except Str GModel)
    (cache : AnimCache) (p1 p2 : Str)
    (hfs1 : ∀ q e, fs1 q = .error e → e ≠ [])
    (hbase : resolvedBase p2 = resolvedBase p1) :
    (loadGltfAnimationLibrary fs2 (loadGltfAnimationLibrary fs1 cache p1).2 p2).2 =
      (loadGltfAnimationLibrary fs1 cache p1).2 ∧
    (loadGltfAnimationLibrary fs2 (loadGltfAnimationLibrary fs1 cache p1).2 p2).1.1 =
      (loadGltfAnimationLibrary fs1 cache p1).1.1 ∧
    (loadGltfAnimationLibrary fs2 (loadGltfAnimationLibrary fs1 cache p1).2 p2).1.2.2 =
      (loadGltfAnimationLibrary fs1 cache p1).1.2.2 ∧
    ((loadGltfAnimationLibrary fs1 cache p1).1.1 = true →
      (loadGltfAnimationLibrary fs2 (loadGltfAnimationLibrary fs1 cache p1).2 p2).1.2.1 =
        (loadGltfAnimationLibrary fs1 cache p1).1.2.1) ∧
    (∀ model, cacheFind cache (resolvedBase p1) = none →
      fs1 (resolvedBase p1) = .ok model → model.animations = [] →
      (loadGltfAnimationLibrary fs1 cache p1).1 = (false, none, "No animations".data)) := by
  obtain ⟨entry, hfind, hl, hb, he, hlib⟩ := loadLib_shape fs1 cache p1 hfs1
  have hhit := loadLib_hit fs2 (loadGltfAnimationLibrary fs1 cache p1).2 p2 entry
    (by rw [hbase]; exact hfind) hl
  refine ⟨by rw [hhit], by rw [hhit, hb], by rw [hhit, he], ?_, ?_⟩
  · intro hok
    rw [hhit]
    have hie : entry.error.isEmpty = true := by rw [← hb]; exact hok
    rw [hlib hie]
  · intro model hnone hok hA
    unfold loadGltfAnimationLibrary
    dsimp only
    rw [hnone]
    unfold loadAnimationLibraryFresh
    dsimp only
    rw [hok]
    dsimp only
    rw [if_pos hA]

/-- Witness for C9: a cached success for "a.glb" is replayed by a second call
whose file system always fails, and the zero-animation failure holds at a
fresh cache. -/
theorem animation_library_cache_replay_witness :
    (loadGltfAnimationLibrary (fun _ => .error "x".data)
        (loadGltfAnimationLibrary (fun _ => .ok trivialModel) [] "a.glb".data).2
        "a.glb".data).1.1 =
      (loadGltfAnimationLibrary (fun _ => .ok trivialModel) [] "a.glb".data).1.1 := by
  have h := animation_library_cache_replay (fun _ => .ok trivialModel)
    (fun _ => .error "x".data) [] "a.glb".data "a.glb".data
    (by intro q e hq; exact absurd hq (by simp)) rfl
  exact h.2.1

lemma lerpWeight_bounds (t0 t1 t : F) (h0 : t0 ≤ t) (h1 : t ≤ t1) :
    0 ≤ lerpWeight t0 t1 t ∧ lerpWeight t0 t1 t ≤ 1 := by
  unfold lerpWeight
  split
  · rename_i hlt
    constructor
    · exact div_nonneg (by linarith) (by linarith)
    · rw [div_le_one (by linarith)]
      linarith
  · exact ⟨le_refl 0, by norm_num⟩

lemma qlerp_shortest_arc (q0 q1 : Vec4) (a : F) (ha0 : 0 ≤ a) (ha1 : a ≤ 1)
    (hdot : qdot q0 q1 < 0) :
    0 ≤ qdot (qlerp q0 (qneg q1) a) q0 ∧ 0 ≤ qdot (qlerp q0 (qneg q1) a) (qneg q1) := by
  rcases q0 with ⟨x0, y0, z0, w0⟩
  rcases q1 with ⟨x1, y1, z1, w1⟩
  unfold qdot qlerp qneg v4x v4y v4z v4w at *
  dsimp only at *
  have hq0 : (0 : F) ≤ x0 ^ 2 + y0 ^ 2 + z0 ^ 2 + w0 ^ 2 := by positivity
  have hq1 : (0 : F) ≤ x1 ^ 2 + y1 ^ 2 + z1 ^ 2 + w1 ^ 2 := by positivity
  have he1 : (0 : F) ≤ (1 - a) * (x0 ^ 2 + y0 ^ 2 + z0 ^ 2 + w0 ^ 2) :=
    mul_nonneg (by linarith) hq0
  have he2 : (0 : F) ≤ a * (-(x0 * x1 + y0 * y1 + z0 * z1 + w0 * w1)) :=
    mul_nonneg ha0 (by linarith)
  have he3 : (0 : F) ≤ (1 - a) * (-(x0 * x1 + y0 * y1 + z0 * z1 + w0 * w1)) :=
    mul_nonneg (by linarith) (by linarith)
  have he4 : (0 : F) ≤ a * (x1 ^ 2 + y1 ^ 2 + z1 ^ 2 + w1 ^ 2) := mul_nonneg ha0 hq1
  constructor <;> nlinarith [he1, he2, he3, he4]

/-- Claim C6: for every non-empty quaternion track, sampling at or before the
first key time returns the normalized first key exactly; and strictly between
two bracketing keys with negative dot product the code negates the second key
before lerping with weight `(t-t0)/(t1-t0)` and renormalizes, so the
pre-normalization result has non-negative dot product with both (sign
corrected) endpoint keys — the shortest-arc choice, angular distance at most
90 degrees. -/
theorem sampleTrackQuat_endpoints_and_shortest_arc (s : F → F) (track : AnimQuatTrack)
    (t : F) (fb : Vec4) (n : Nat)
    (hn : track.times.length = n) (hn0 : 0 < n) (hvals : n * 4 ≤ track.values.length) :
    (t ≤ track.times.getD 0 0 →
      sampleTrackQuat s track t fb = quatNormalize s (quatAt track.values 0)) ∧
    (∀ k, track.times.getD 0 0 < t → t < track.times.getD (n - 1) 0 →
      findBracket track.times t 0 = k →
      track.times.getD k 0 ≤ t → t ≤ track.times.getD (k + 1) 0 →
      qdot (quatAt track.values k) (quatAt track.values (k + 1)) < 0 →
      sampleTrackQuat s track t fb =
        quatNormalize s (qlerp (quatAt track.values k)
          (qneg (quatAt track.values (k + 1)))
          (lerpWeight (track.times.getD k 0) (track.times.getD (k + 1) 0) t)) ∧
      0 ≤ qdot (qlerp (quatAt track.values k) (qneg (quatAt track.values (k + 1)))
            (lerpWeight (track.times.getD k 0) (track.times.getD (k + 1) 0) t))
          (quatAt track.values k) ∧
      0 ≤ qdot (qlerp (quatAt track.values k) (qneg (quatAt track.values (k + 1)))
            (lerpWeight (track.times.getD k 0) (track.times.getD (k + 1) 0) t))
          (qneg (quatAt track.values (k + 1)))) := by
  have hc1 : ¬(track.times.length = 0 ∨ track.values.length < track.times.length * 4) := by
    rw [hn]
    push_neg
    exact ⟨by omega, by omega⟩
  constructor
  · intro ht
    unfold sampleTrackQuat
    dsimp only
    rw [if_neg hc1, if_pos (Or.inr ht)]
  · intro k hfr hbk hkeq hk0 hk1 hdot
    have hn1 : track.times.length ≠ 1 := by
      intro h1
      have hne : n = 1 := by omega
      rw [hne] at hbk
      simp only [Nat.sub_self] at hbk
      linarith
    have hback : ¬(track.times.getD (track.times.length - 1) 0 ≤ t) := by
      rw [hn]
      exact not_le.mpr hbk
    obtain ⟨ha0, ha1⟩ := lerpWeight_bounds (track.times.getD k 0)
      (track.times.getD (k + 1) 0) t hk0 hk1
    refine ⟨?_, (qlerp_shortest_arc _ _ _ ha0 ha1 hdot).1,
      (qlerp_shortest_arc _ _ _ ha0 ha1 hdot).2⟩
    unfold sampleTrackQuat
    dsimp only
    rw [if_neg hc1, if_neg (by push_neg; exact ⟨hn1, hfr⟩), if_neg hback, hkeq,
      if_pos hdot]

/-- Witness for C6 on the two-key track q0 = (0,0,0,1), q1 = (0,0,0,-1) over
times [0,1]: at t = -1 the clamped normalized first key, at t = 1/2 the
sign-corrected lerp and its non-negative dots. -/
theorem sampleTrackQuat_witness :
    sampleTrackQuat (fun x => x)
        { times := [0, 1], values := [0, 0, 0, 1, 0, 0, 0, -1] } (-1) (0, 0, 0, 1) =
      quatNormalize (fun x => x) (quatAt [0, 0, 0, 1, 0, 0, 0, -1] 0) ∧
    sampleTrackQuat (fun x => x)
        { times := [0, 1], values := [0, 0, 0, 1, 0, 0, 0, -1] } (1 / 2) (0, 0, 0, 1) =
      quatNormalize (fun x => x)
        (qlerp (quatAt [0, 0, 0, 1, 0, 0, 0, -1] 0)
          (qneg (quatAt [0, 0, 0, 1, 0, 0, 0, -1] 1)) (lerpWeight 0 1 (1 / 2))) := by
  have h1 := sampleTrackQuat_endpoints_and_shortest_arc (fun x => x)
    { times := [0, 1], values := [0, 0, 0, 1, 0, 0, 0, -1] } (-1) (0, 0, 0, 1) 2
    (by decide) (by decide) (by decide)
  have h2 := sampleTrackQuat_endpoints_and_shortest_arc (fun x => x)
    { times := [0, 1], values := [0, 0, 0, 1, 0, 0, 0, -1] } (1 / 2) (0, 0, 0, 1) 2
    (by decide) (by decide) (by decide)
  refine ⟨h1.1 (by decide), ?_⟩
  have h3 := h2.2 0 (by decide) (by decide) (by decide) (by decide) (by decide) (by decide)
  exact h3.1

lemma loadGltfMeshFromModel_eq_of_pinned (s : F → F) (m : GModel) (selectors : List Str)
    (pds : List PrimData) (hne : m.meshes ≠ [])
    (hpds : allPrimDatas m selectors = .ok pds) :
    loadGltfMeshFromModel s m selectors =
      .ok { mesh := { positions := centerPositions (pds.flatMap PrimData.pos)
                      normals := if pds.flatMap PrimData.norm = [] then
                          computeNormals s (pds.flatMap PrimData.pos)
                        else pds.flatMap PrimData.norm
                      uvs := pds.flatMap PrimData.uv
                      colors := pds.flatMap PrimData.col
                      joints := pds.flatMap PrimData.joints
                      weights := pds.flatMap PrimData.weights }
            has_uv := pds.any PrimData.hasUv } := by
  unfold loadGltfMeshFromModel
  rw [if_neg hne, hpds]

lemma primContribution_lengths (m : GModel) (prim : Primitive) (pd : PrimData)
    (h : primContribution m prim = some pd) :
    pd.joints.length = pd.pos.length ∧ pd.weights.length = pd.pos.length ∧
    (pd.norm = [] ∨ pd.norm.length = pd.pos.length) ∧
    (pd.uv = [] ∨ pd.uv.length = pd.pos.length) ∧
    (pd.col = [] ∨ pd.col.length = pd.pos.length) := by
  unfold primContribution at h
  rcases hattr : attrFind prim "POSITION".data with _ | pi0 <;> rw [hattr] at h <;>
    dsimp only at h
  · exact absurd h (by simp)
  · rcases hacc : idx? m.accessors pi0 with _ | pacc <;> rw [hacc] at h <;> dsimp only at h
    · exact absurd h (by simp)
    · rcases hread : ReadAccessor m pacc 3 with _ | positions <;> rw [hread] at h <;>
        dsimp only at h
      · exact absurd h (by simp)
      · have hpd := (Option.some.injEq _ _).mp h
        subst hpd
        dsimp only
        refine ⟨?_, ?_, ?_, ?_, ?_⟩
        · split <;> simp
        · split <;> simp
        · split
          · exact Or.inl rfl
          · exact Or.inr (by simp)
        · split
          · exact Or.inl rfl
          · exact Or.inr (by simp)
        · split
          · exact Or.inl rfl
          · exact Or.inr (by simp)

lemma flatMap_length_congr {α β γ : Type} (l : List α) (f : α → List β) (g : α → List γ)
    (h : ∀ x ∈ l, (f x).length = (g x).length) :
    (l.flatMap f).length = (l.flatMap g).length := by
  induction l with
  | nil => rfl
  | cons hd tl ih =>
    simp only [List.flatMap_cons, List.length_append]
    rw [h hd (by simp), ih (fun x hx => h x (by simp [hx]))]

lemma computeNormals_length (s : F → F) (ps : List Vec3) :
    (computeNormals s ps).length = ps.length := by
  simp [computeNormals]

lemma centerPositions_length (ps : List Vec3) :
    (centerPositions ps).length = ps.length := by
  unfold centerPositions
  dsimp only
  split
  · exact List.length_map _ _
  · rfl

lemma mem_meshPrimDatas (m : GModel) (mi : Int) (pd : PrimData)
    (h : pd ∈ meshPrimDatas m mi) :
    ∃ prim, primContribution m prim = some pd := by
  unfold meshPrimDatas at h
  rcases hidx : idx? m.meshes mi with _ | mesh <;> rw [hidx] at h
  · exact absurd h (by simp)
  · obtain ⟨prim, _, hp⟩ := List.mem_filterMap.mp h
    exact ⟨prim, hp⟩

lemma mem_selectorPrimDatas (m : GModel) (sel : Str) (pds : List PrimData)
    (h : selectorPrimDatas m sel = .ok pds) (pd : PrimData) (hpd : pd ∈ pds) :
    ∃ prim, primContribution m prim = some pd := by
  unfold selectorPrimDatas at h
  rcases hsel : selectorMeshIndices m sel with e | idxs <;> rw [hsel] at h <;> dsimp only at h
  · exact absurd h (by simp)
  · split at h
    · exact absurd h (by simp)
    · have hpds := (Except.ok.injEq _ _).mp h
      subst hpds
      obtain ⟨mi, _, hmi⟩ := List.mem_flatMap.mp hpd
      exact mem_meshPrimDatas m mi pd hmi

lemma allPrimDatas_mem_aux (m : GModel) (selectors : List Str) (acc pds : List PrimData)
    (hacc : ∀ pd ∈ acc, ∃ prim, primContribution m prim = some pd)
    (h : selectors.foldlM
      (fun accL sel => (selectorPrimDatas m sel).map (accL ++ ·)) acc = .ok pds) :
    ∀ pd ∈ pds, ∃ prim, primContribution m prim = some pd := by
  induction selectors generalizing acc with
  | nil =>
    simp only [List.foldlM_nil] at h
    have hpds := (Except.ok.injEq _ _).mp h
    subst hpds
    exact hacc
  | cons sel rest ih =>
    simp only [List.foldlM_cons] at h
    rcases hsel : selectorPrimDatas m sel with e | l <;>
      rw [hsel] at h <;> dsimp only [Except.map] at h
    · exact Except.noConfusion h
    · refine ih (acc ++ l) ?_ h
      intro pd hpd
      rcases List.mem_append.mp hpd with hmem | hmem
      · exact hacc pd hmem
      · exact mem_selectorPrimDatas m sel l hsel pd hmem

lemma allPrimDatas_mem (m : GModel) (selectors : List Str) (pds : List PrimData)
    (h : allPrimDatas m selectors = .ok pds) :
    ∀ pd ∈ pds, ∃ prim, primContribution m prim = some pd :=
  allPrimDatas_mem_aux m selectors [] pds (by intro pd hpd; exact absurd hpd (by simp)) h

/-- Claim C1 (amended): for every successful mesh assembly, joints and weights
always match the vertex count, and the normals (resp. uv, color) array matches
the vertex count (resp. is empty or matches it) provided attribute provision
is uniform across the loaded primitives: every loaded primitive contributes
that attribute, or none does.  (With mixed primitives the arrays are not
parallel; see the counterexample.) -/
theorem mesh_parallel_arrays_when_uniform (s : F → F) (m : GModel)
    (selectors : List Str) (pds : List PrimData) (out : GltfMeshOut)
    (hne : m.meshes ≠ [])
    (hpds : allPrimDatas m selectors = .ok pds)
    (hok : loadGltfMeshFromModel s m selectors = .ok out)
    (hnormU : (∀ pd ∈ pds, pd.norm.length = pd.pos.length) ∨ (∀ pd ∈ pds, pd.norm = []))
    (huvU : (∀ pd ∈ pds, pd.uv.length = pd.pos.length) ∨ (∀ pd ∈ pds, pd.uv = []))
    (hcolU : (∀ pd ∈ pds, pd.col.length = pd.pos.length) ∨ (∀ pd ∈ pds, pd.col = [])) :
    out.mesh.normals.length = out.mesh.positions.length ∧
    (out.mesh.uvs = [] ∨ out.mesh.uvs.length = out.mesh.positions.length) ∧
    (out.mesh.colors = [] ∨ out.mesh.colors.length = out.mesh.positions.length) ∧
    out.mesh.joints.length = out.mesh.positions.length ∧
    out.mesh.weights.length = out.mesh.positions.length := by
  rw [loadGltfMeshFromModel_eq_of_pinned s m selectors pds hne hpds] at hok
  have hout := (Except.ok.injEq _ _).mp hok
  subst hout
  dsimp only
  have hposlen : (centerPositions (pds.flatMap PrimData.pos)).length =
      (pds.flatMap PrimData.pos).length := centerPositions_length _
  have hmem := allPrimDatas_mem m selectors pds hpds
  refine ⟨?_, ?_, ?_, ?_, ?_⟩
  · split
    · rw [computeNormals_length, hposlen]
    · rename_i hnn
      rcases hnormU with hU | hU
      · rw [hposlen]
        exact flatMap_length_congr pds _ _ hU
      · exact absurd (List.flatMap_eq_nil_iff.mpr hU) hnn
  · rcases huvU with hU | hU
    · exact Or.inr (by rw [hposlen]; exact flatMap_length_congr pds _ _ hU)
    · exact Or.inl (List.flatMap_eq_nil_iff.mpr hU)
  · rcases hcolU with hU | hU
    · exact Or.inr (by rw [hposlen]; exact flatMap_length_congr pds _ _ hU)
    · exact Or.inl (List.flatMap_eq_nil_iff.mpr hU)
  · rw [hposlen]
    refine flatMap_length_congr pds _ _ (fun pd hpd => ?_)
    obtain ⟨prim, hprim⟩ := hmem pd hpd
    exact (primContribution_lengths m prim pd hprim).1
  · rw [hposlen]
    refine flatMap_length_congr pds _ _ (fun pd hpd => ?_)
    obtain ⟨prim, hprim⟩ := hmem pd hpd
    exact (primContribution_lengths m prim pd hprim).2.1

/-- Counterexample to C1 as stated: with mixed primitives (one provides
NORMAL, the other does not) LoadGltfMesh succeeds with 6 position entries but
only 3 normal entries — the arrays are not parallel, and ComputeNormals is
not invoked because the normals array is non-empty. -/
theorem mixed_normals_not_parallel_eval :
    (loadGltfMeshFromModel (fun x => x) c1MixedModel [[]]).toOption.map
      (fun out => (out.mesh.positions.length, out.mesh.normals.length)) = some (6, 3) ∧
    (6 : Nat) ≠ 3 := by
  decide

/-- Witness for the amended C1 at a single-primitive scene with uniform
attribute provision. -/
theorem mesh_parallel_arrays_witness :
    ((loadGltfMeshFromModel (fun x => x) uniModel [[]]).toOption.getD
        default).mesh.normals.length =
      ((loadGltfMeshFromModel (fun x => x) uniModel [[]]).toOption.getD
        default).mesh.positions.length := by
  have h := mesh_parallel_arrays_when_uniform (fun x => x) uniModel [[]]
    ((allPrimDatas uniModel [[]]).toOption.getD [])
    ((loadGltfMeshFromModel (fun x => x) uniModel [[]]).toOption.getD default)
    (by decide) (by rfl) (by rfl)
    (Or.inl (by decide)) (Or.inr (by decide)) (Or.inr (by decide))
  exact h.1

lemma le_rmin_iff (c a b : F) : c ≤ rmin a b ↔ c ≤ a ∧ c ≤ b := by
  unfold rmin
  split <;> rename_i h <;> constructor
  · intro hc
    exact ⟨by linarith, hc⟩
  · intro hc
    exact hc.2
  · intro hc
    exact ⟨hc, by linarith⟩
  · intro hc
    exact hc.1

lemma rmax_le_iff (c a b : F) : rmax a b ≤ c ↔ a ≤ c ∧ b ≤ c := by
  unfold rmax
  split <;> rename_i h <;> constructor
  · intro hc
    exact ⟨by linarith, hc⟩
  · intro hc
    exact hc.2
  · intro hc
    exact ⟨hc, by linarith⟩
  · intro hc
    exact hc.1

lemma le_foldl_rmin (l : List Vec3) (f : Vec3 → F) (init c : F) :
    c ≤ l.foldl (fun acc p => rmin acc (f p)) init ↔ (c ≤ init ∧ ∀ p ∈ l, c ≤ f p) := by
  induction l generalizing init with
  | nil => simp
  | cons hd tl ih =>
    simp only [List.foldl_cons, ih, le_rmin_iff, List.mem_cons]
    constructor
    · rintro ⟨⟨h1, h2⟩, h3⟩
      exact ⟨h1, fun p hp => hp.elim (fun he => he ▸ h2) (h3 p)⟩
    · rintro ⟨h1, h2⟩
      exact ⟨⟨h1, h2 hd (Or.inl rfl)⟩, fun p hp => h2 p (Or.inr hp)⟩

lemma foldl_rmax_le (l : List Vec3) (f : Vec3 → F) (init c : F) :
    l.foldl (fun acc p => rmax acc (f p)) init ≤ c ↔ (init ≤ c ∧ ∀ p ∈ l, f p ≤ c) := by
  induction l generalizing init with
  | nil => simp
  | cons hd tl ih =>
    simp only [List.foldl_cons, ih, rmax_le_iff, List.mem_cons]
    constructor
    · rintro ⟨⟨h1, h2⟩, h3⟩
      exact ⟨h1, fun p hp => hp.elim (fun he => he ▸ h2) (h3 p)⟩
    · rintro ⟨h1, h2⟩
      exact ⟨⟨h1, h2 hd (Or.inl rfl)⟩, fun p hp => h2 p (Or.inr hp)⟩

lemma centerPositions_spec (ps : List Vec3) :
    ((∀ p ∈ ps, inUnitRange p) →
      centerPositions ps =
        ps.map (fun p => (v3x p - 1 / 2, v3y p - 1 / 2, v3z p - 1 / 2))) ∧
    ((∃ p ∈ ps, ¬inUnitRange p) → centerPositions ps = ps) := by
  unfold centerPositions
  dsimp only
  constructor
  · intro hall
    rw [if_pos]
    exact ⟨(le_foldl_rmin _ _ _ _).mpr ⟨by norm_num, fun p hp => (hall p hp).1⟩,
      (le_foldl_rmin _ _ _ _).mpr ⟨by norm_num, fun p hp => (hall p hp).2.1⟩,
      (le_foldl_rmin _ _ _ _).mpr ⟨by norm_num, fun p hp => (hall p hp).2.2.1⟩,
      (foldl_rmax_le _ _ _ _).mpr ⟨by norm_num, fun p hp => (hall p hp).2.2.2.1⟩,
      (foldl_rmax_le _ _ _ _).mpr ⟨by norm_num, fun p hp => (hall p hp).2.2.2.2.1⟩,
      (foldl_rmax_le _ _ _ _).mpr ⟨by norm_num, fun p hp => (hall p hp).2.2.2.2.2⟩⟩
  · rintro ⟨p, hp, hnp⟩
    rw [if_neg]
    intro hcond
    exact hnp ⟨((le_foldl_rmin _ _ _ _).mp hcond.1).2 p hp,
      ((le_foldl_rmin _ _ _ _).mp hcond.2.1).2 p hp,
      ((le_foldl_rmin _ _ _ _).mp hcond.2.2.1).2 p hp,
      ((foldl_rmax_le _ _ _ _).mp hcond.2.2.2.1).2 p hp,
      ((foldl_rmax_le _ _ _ _).mp hcond.2.2.2.2.1).2 p hp,
      ((foldl_rmax_le _ _ _ _).mp hcond.2.2.2.2.2).2 p hp⟩

/-- Claim C7: for every successful mesh assembly, if every emitted position
lies in the padded unit cube [-0.001, 1.001] on every axis, every output
position is the raw position minus (0.5, 0.5, 0.5); if any emitted position
lies outside that range on some axis, the output positions are the raw
positions unchanged. -/
theorem mesh_centering_heuristic (s : F → F) (m : GModel) (selectors : List Str)
    (pds : List PrimData) (out : GltfMeshOut)
    (hne : m.meshes ≠ [])
    (hpds : allPrimDatas m selectors = .ok pds)
    (hok : loadGltfMeshFromModel s m selectors = .ok out) :
    ((∀ p ∈ pds.flatMap PrimData.pos, inUnitRange p) →
      out.mesh.positions = (pds.flatMap PrimData.pos).map
        (fun p => (v3x p - 1 / 2, v3y p - 1 / 2, v3z p - 1 / 2))) ∧
    ((∃ p ∈ pds.flatMap PrimData.pos, ¬inUnitRange p) →
      out.mesh.positions = pds.flatMap PrimData.pos) := by
  rw [loadGltfMeshFromModel_eq_of_pinned s m selectors pds hne hpds] at hok
  have hout := (Except.ok.injEq _ _).mp hok
  subst hout
  dsimp only
  exact centerPositions_spec _

/-- Witness for C7 at a scene whose raw positions lie in the unit cube: the
output positions are the recentered raw positions. -/
theorem mesh_centering_witness :
    ((loadGltfMeshFromModel (fun x => x) uniModel [[]]).toOption.getD
        default).mesh.positions =
      (((allPrimDatas uniModel [[]]).toOption.getD []).flatMap PrimData.pos).map
        (fun p => (v3x p - 1 / 2, v3y p - 1 / 2, v3z p - 1 / 2)) := by
  have h := mesh_centering_heuristic (fun x => x) uniModel [[]]
    ((allPrimDatas uniModel [[]]).toOption.getD [])
    ((loadGltfMeshFromModel (fun x => x) uniModel [[]]).toOption.getD default)
    (by decide) (by rfl) (by rfl)
  exact h.1 (by decide)

lemma getD_range_map {α : Type} (f : Nat → α) (n j : Nat) (d : α) (hj : j < n) :
    ((List.range n).map f).getD j d = f j := by
  rw [List.getD_eq_getElem?_getD, List.getElem?_map, List.getElem?_range hj]
  rfl

/-- Claim C8 (amended): when no emitted vertex has a normal, the three
vertices of every complete triangle receive the same flat normal
`triNormal` — the cross product of the edge vectors normalized when its
squared length exceeds 1e-12 (the code's `len > 1e-6`), and kept raw
(near-zero, zero exactly when the cross product is zero) otherwise, rather
than failing. -/
theorem mesh_flat_normals_synthesis (s : F → F) (m : GModel) (selectors : List Str)
    (pds : List PrimData) (out : GltfMeshOut)
    (hne : m.meshes ≠ [])
    (hpds : allPrimDatas m selectors = .ok pds)
    (hok : loadGltfMeshFromModel s m selectors = .ok out)
    (hnone : pds.flatMap PrimData.norm = []) :
    out.mesh.normals = computeNormals s (pds.flatMap PrimData.pos) ∧
    (∀ ps : List Vec3, ∀ tIdx j : Nat, 3 * tIdx + 2 < ps.length →
      (j = 3 * tIdx ∨ j = 3 * tIdx + 1 ∨ j = 3 * tIdx + 2) →
      (computeNormals s ps).getD j v3zero =
        triNormal s (ps.getD (3 * tIdx) v3zero) (ps.getD (3 * tIdx + 1) v3zero)
          (ps.getD (3 * tIdx + 2) v3zero)) ∧
    (∀ p0 p1 p2 : Vec3,
      normSq3 (cross3 (sub3 p1 p0) (sub3 p2 p0)) ≤ 1 / 1000000000000 →
      triNormal s p0 p1 p2 = cross3 (sub3 p1 p0) (sub3 p2 p0)) := by
  rw [loadGltfMeshFromModel_eq_of_pinned s m selectors pds hne hpds] at hok
  have hout := (Except.ok.injEq _ _).mp hok
  subst hout
  refine ⟨by dsimp only; rw [if_pos hnone], ?_, ?_⟩
  · intro ps tIdx j hlen hj
    unfold computeNormals
    have hjlt : j < ps.length := by omega
    rw [getD_range_map _ _ _ _ hjlt]
    have hdiv : j / 3 = tIdx := by omega
    rw [hdiv, if_pos hlen]
  · intro p0 p1 p2 hsmall
    unfold triNormal
    dsimp only
    rw [if_neg (not_lt.mpr hsmall)]

/-- Counterexample to C8 as stated: a triangle with near-zero but non-zero
area ((0,0,0), (1,0,0), (0,1e-7,0)) yields the unnormalized cross product
(0,0,1e-7) as the normal of all three vertices — near zero, but not the zero
normal the claim promises. -/
theorem degenerate_triangle_nonzero_normal_eval :
    (loadGltfMeshFromModel (fun x => x) c8Model [[]]).toOption.map
      (fun out => out.mesh.normals) =
      some [(0, 0, 1 / 10000000), (0, 0, 1 / 10000000), (0, 0, 1 / 10000000)] ∧
    ((0, 0, 1 / 10000000) : Vec3) ≠ ((0, 0, 0) : Vec3) := by
  decide

/-- Witness for the amended C8 at the near-degenerate triangle scene. -/
theorem mesh_flat_normals_witness :
    ((loadGltfMeshFromModel (fun x => x) c8Model [[]]).toOption.getD default).mesh.normals =
      computeNormals (fun x => x)
        (((allPrimDatas c8Model [[]]).toOption.getD []).flatMap PrimData.pos) := by
  have h := mesh_flat_normals_synthesis (fun x => x) c8Model [[]]
    ((allPrimDatas c8Model [[]]).toOption.getD [])
    ((loadGltfMeshFromModel (fun x => x) c8Model [[]]).toOption.getD default)
    (by decide) (by rfl) (by rfl) (by decide)
  exact h.1

lemma selectorPrimDatas_missing (m : GModel) (sel : Str) (idxs : List Int)
    (hsel : selectorMeshIndices m sel = .ok idxs)
    (hnone : idxs.flatMap (meshPrimDatas m) = []) :
    selectorPrimDatas m sel = .error "Missing POSITION".data := by
  unfold selectorPrimDatas
  rw [hsel]
  dsimp only
  rw [if_pos hnone]

lemma foldlM_error_of_mem (m : GModel) (selectors : List Str) (sel : Str) (e : Str)
    (hmem : sel ∈ selectors) (hsel : selectorPrimDatas m sel = .error e) :
    ∀ acc, ¬∃ pds, selectors.foldlM
      (fun accL q => (selectorPrimDatas m q).map (accL ++ ·)) acc = .ok pds := by
  induction selectors with
  | nil => exact absurd hmem (by simp)
  | cons s0 rest ih =>
    intro acc h
    obtain ⟨pds, hfold⟩ := h
    simp only [List.foldlM_cons] at hfold
    rcases hs0 : selectorPrimDatas m s0 with e0 | l0 <;> rw [hs0] at hfold <;>
      dsimp only [Except.map] at hfold
    · exact Except.noConfusion hfold
    · rcases List.mem_cons.mp hmem with heq | hmem'
      · rw [heq] at hsel
        rw [hsel] at hs0
        exact Except.noConfusion hs0
      · exact ih hmem' (acc ++ l0) ⟨pds, hfold⟩

lemma foldlM_first_error (m : GModel) (pre : List Str) (post : List Str) (sel : Str)
    (e : Str)
    (hpre : ∀ q ∈ pre, ∃ l, selectorPrimDatas m q = .ok l)
    (hsel : selectorPrimDatas m sel = .error e) :
    ∀ acc, (pre ++ sel :: post).foldlM
      (fun accL q => (selectorPrimDatas m q).map (accL ++ ·)) acc = .error e := by
  induction pre with
  | nil =>
    intro acc
    simp only [List.nil_append, List.foldlM_cons]
    rw [hsel]
    rfl
  | cons q pre' ih =>
    intro acc
    obtain ⟨l, hq⟩ := hpre q (by simp)
    simp only [List.cons_append, List.foldlM_cons]
    rw [hq]
    exact ih (fun q' hq' => hpre q' (by simp [hq'])) (acc ++ l)

/-- Claim C10: LoadGltfMesh fails whenever some requested selector resolves
but yields no loaded primitive with a position attribute; when the earlier
selectors succeed the reported message is "Missing POSITION" and the output
mesh is left at its default (no partial vertex data), per the out-parameter
convention modelled by loadGltfMeshOut. -/
theorem mesh_missing_position_fails (s : F → F) (m : GModel) (selectors : List Str)
    (sel : Str) (idxs : List Int)
    (hne : m.meshes ≠ [])
    (hmem : sel ∈ selectors)
    (hsel : selectorMeshIndices m sel = .ok idxs)
    (hnone : idxs.flatMap (meshPrimDatas m) = []) :
    (¬∃ out, loadGltfMeshFromModel s m selectors = .ok out) ∧
    (∀ pre post, selectors = pre ++ sel :: post →
      (∀ q ∈ pre, ∃ l, selectorPrimDatas m q = .ok l) →
      loadGltfMeshOut s m selectors = (false, {}, "Missing POSITION".data)) := by
  have hselerr := selectorPrimDatas_missing m sel idxs hsel hnone
  constructor
  · intro h
    obtain ⟨out, hout⟩ := h
    unfold loadGltfMeshFromModel at hout
    rw [if_neg hne] at hout
    rcases happ : allPrimDatas m selectors with e' | pds <;> rw [happ] at hout
    · exact Except.noConfusion hout
    · exact foldlM_error_of_mem m selectors sel _ hmem hselerr [] ⟨pds, happ⟩
  · intro pre post hsplit hpre
    subst hsplit
    have herr : allPrimDatas m (pre ++ sel :: post) = .error "Missing POSITION".data :=
      foldlM_first_error m pre post sel _ hpre hselerr []
    unfold loadGltfMeshOut loadGltfMeshFromModel
    rw [if_neg hne, herr]

/-- Witness for C10 at a mesh whose only primitive lacks POSITION. -/
theorem mesh_missing_position_witness :
    loadGltfMeshOut (fun x => x) c10Model [[]] =
      (false, {}, "Missing POSITION".data) := by
  have h := mesh_missing_position_fails (fun x => x) c10Model [[]] [] [0]
    (by decide) (by simp) (by rfl) (by decide)
  exact h.2 [] [] rfl (by intro q hq; exact absurd hq (List.not_mem_nil q))

end ClaimProofs

end VoxelGltf
